import Mathlib

/-!
Shallow embedding of the scheduling / job-orchestration core of the
EVident-Battery-Collection-Panel repository:

* `models/sensor_config.py`   — per-sensor configuration and runtime state,
* `services/multi_scheduler.py` — the multi-sensor countdown scheduler,
* `services/collector.py`     — the collection worker and collector service,
* `ui/main_window.py`         — only `_on_collection_complete`, the handler that
  reconciles a finished job back into stats and the scheduler.

Python `dict`s become association lists (`Dict.set` over the first matching
key, as dict assignment; `Dict.eraseAll` as `del`).  Python `int`s become
`Int`.  Qt signal emissions become explicit event lists returned by the
operations.  The network side effects of a worker run (`SensorClient` calls)
are supplied by a `SensorEnv` record of outcomes, with each fallible call an
`Except String` value; the cooperative cancellation flag is modelled by the
two values it is read at (one per checkpoint).  `QTime` values are modelled
as integers (msecs of day) and `QTime.currentTime()` becomes an explicit
`now` argument.
-/

namespace EVident

/-! ### Association-list model of Python dicts -/

/-- Lookup of `d[k]` / `d.get(k)`: first binding of the key. -/
def Dict.get? {α : Type} (m : List (String × α)) (k : String) : Option α :=
  match m with
  | [] => none
  | (k', v) :: rest => if k' = k then some v else Dict.get? rest k

/-- Embeds `d[k] = v`: replace the first binding in place, else append (dict
assignment keeps the key's position). -/
def Dict.set {α : Type} (m : List (String × α)) (k : String) (v : α) :
    List (String × α) :=
  match m with
  | [] => [(k, v)]
  | (k', v') :: rest =>
      if k' = k then (k, v) :: rest else (k', v') :: Dict.set rest k v

/-- Embeds `del d[k]`: a dict holds each key at most once, so deletion removes every
binding of the key. -/
def Dict.eraseAll {α : Type} (m : List (String × α)) (k : String) :
    List (String × α) :=
  m.filter (fun p => ¬ p.1 = k)

theorem Dict.get_set_self {α : Type} (m : List (String × α)) (k : String) (v : α) :
    Dict.get? (Dict.set m k v) k = some v := by
  induction m with
  | nil => simp [Dict.set, Dict.get?]
  | cons p rest ih =>
      obtain ⟨k', v'⟩ := p
      by_cases h : k' = k
      · simp [Dict.set, Dict.get?, h]
      · simp [Dict.set, Dict.get?, h, ih]

theorem Dict.get_set_ne {α : Type} (m : List (String × α)) (k k' : String) (v : α)
    (h : k' ≠ k) : Dict.get? (Dict.set m k v) k' = Dict.get? m k' := by
  induction m with
  | nil => simp [Dict.set, Dict.get?, Ne.symm h]
  | cons p rest ih =>
      obtain ⟨k₀, v₀⟩ := p
      by_cases h₀ : k₀ = k
      · subst h₀
        simp [Dict.set, Dict.get?, Ne.symm h]
      · simp only [Dict.set, if_neg h₀]
        by_cases h₁ : k₀ = k'
        · simp [Dict.get?, h₁]
        · simp [Dict.get?, h₁, ih]

theorem Dict.get_eraseAll_self {α : Type} (m : List (String × α)) (k : String) :
    Dict.get? (Dict.eraseAll m k) k = none := by
  induction m with
  | nil => simp [Dict.eraseAll, Dict.get?]
  | cons p rest ih =>
      obtain ⟨k', v'⟩ := p
      by_cases h : k' = k
      · simpa [Dict.eraseAll, h] using ih
      · simpa [Dict.eraseAll, Dict.get?, h] using ih

/-! ### `models/sensor_config.py` -/

/-- Embeds `IntervalUnit` enum. -/
inductive IntervalUnit
  | seconds
  | minutes
  | hours
  | days
  | weeks
deriving DecidableEq, Repr

/-- Embeds `IntervalUnit.to_seconds`: convert a value in this unit to seconds. -/
def IntervalUnit.to_seconds (u : IntervalUnit) (value : Int) : Int :=
  value * (match u with
    | .seconds => 1
    | .minutes => 60
    | .hours => 3600
    | .days => 86400
    | .weeks => 604800)

/-- Embeds `StopMode` enum. -/
inductive StopMode
  | continuous
  | after_count
  | at_time
deriving DecidableEq, Repr

/-- Embeds `SensorStatus` enum. -/
inductive SensorStatus
  | idle
  | waiting
  | collecting
  | downloading
  | uploading
  | error
deriving DecidableEq, Repr

/-- Embeds `SensorStats` dataclass: collection-history counters. -/
structure SensorStats where
  collections : Int := 0
  uploaded : Int := 0
  errors : Int := 0
deriving DecidableEq, Repr

/-- Embeds `SensorConfig` dataclass: configuration and state of one sensor.  Fields
that the scheduling core never reads (battery, accel range, the `SampleRate`
enum value, progress bookkeeping) are kept where a claim's handler touches
them (`progress`) and carried opaquely otherwise (`sample_rate` as a plain
number).  `stop_at_time : Option Int` models the optional `QTime`. -/
structure SensorConfig where
  hostname : String
  ip : String
  duration : Int := 10
  interval_value : Int := 5
  interval_unit : IntervalUnit := .minutes
  sample_rate : Int := 104
  output_folder : Option String := none
  upload_to_aws : Bool := true
  stop_mode : StopMode := .continuous
  repetition_count : Int := 1
  stop_at_time : Option Int := none
  remaining_repetitions : Int := 0
  status : SensorStatus := .idle
  is_running : Bool := false
  countdown_seconds : Int := 0
  stats : SensorStats := {}
  progress : Int := 0
deriving DecidableEq, Repr

/-- Embeds `SensorConfig.interval_seconds` property: interval in seconds, floored
at 1. -/
def SensorConfig.interval_seconds (c : SensorConfig) : Int :=
  max 1 (c.interval_unit.to_seconds c.interval_value)

/-- Embeds `SensorConfig.is_configured` property: the sensor is runnable iff the
output folder is set. -/
def SensorConfig.is_configured (c : SensorConfig) : Bool :=
  c.output_folder.isSome

/-- Embeds `SensorConfig.reset_countdown`: set the countdown to the configured
interval. -/
def SensorConfig.reset_countdown (c : SensorConfig) : SensorConfig :=
  { c with countdown_seconds := c.interval_seconds }

/-- Embeds `SensorConfig.tick_countdown`: decrement the countdown by one second when
positive; return the updated config and whether the countdown is now zero. -/
def SensorConfig.tick_countdown (c : SensorConfig) : SensorConfig × Bool :=
  let c' :=
    if c.countdown_seconds > 0 then
      { c with countdown_seconds := c.countdown_seconds - 1 }
    else c
  (c', c'.countdown_seconds = 0)

/-- Embeds `SensorConfig.reset_repetitions`: reset the remaining repetitions to the
configured count. -/
def SensorConfig.reset_repetitions (c : SensorConfig) : SensorConfig :=
  { c with remaining_repetitions := c.repetition_count }

/-- Embeds `SensorConfig.should_stop_after_collection`: the (mutating) stop-policy
check, evaluated when a collection completes.  `now` stands for
`QTime.currentTime()`. -/
def SensorConfig.should_stop_after_collection (c : SensorConfig) (now : Int) :
    SensorConfig × Bool :=
  match c.stop_mode with
  | .continuous => (c, false)
  | .after_count =>
      let c' := { c with remaining_repetitions := c.remaining_repetitions - 1 }
      (c', c'.remaining_repetitions ≤ 0)
  | .at_time =>
      match c.stop_at_time with
      | some t => (c, now ≥ t)
      | none => (c, false)

/-! ### `services/collector.py` -/

/-- Embeds `CollectionStatus` enum: status stages of a collection cycle. -/
inductive CollectionStatus
  | idle
  | connecting
  | collecting
  | downloading
  | uploading
  | complete
  | error
  | aws_error
deriving DecidableEq, Repr

/-- Embeds `CollectionResult` dataclass.  `duration` (a float of seconds in the
source) is modelled as an integer of elapsed time units. -/
structure CollectionResult where
  hostname : String := ""
  success : Bool := false
  file_path : Option String := none
  file_size : Int := 0
  aws_status : Option String := none
  error_message : Option String := none
  duration : Int := 0
deriving DecidableEq, Repr

/-- The Qt signals a `CollectorWorker` emits, as explicit events. -/
inductive WorkerEvent
  | status_changed (hostname : String) (status : CollectionStatus) (message : String)
  | progress_updated (hostname : String) (downloaded : Int) (total : Int)
  | collection_complete (hostname : String) (result : CollectionResult)
deriving DecidableEq, Repr

/-- Outcomes of the `SensorClient` network calls made by one worker run, plus
the values of the cooperative cancellation flag at the two points where
`run` reads it, and the elapsed wall-clock time the `finally` block records.
Each fallible call is an `Except String` value (`.error` = the call raised,
carrying `str(e)`).  `start_collection` yields the saved file's path and its
on-disk size (`file_path.stat().st_size`, 0 when the file does not exist),
together with the `(downloaded, total)` pairs the download streamed to the
progress callback before the call returned or raised. -/
structure SensorEnv where
  get_status : Except String Int
  set_odr : Except String Unit
  progress_reports : List (Int × Int)
  start_collection : Except String (String × Int)
  upload_to_aws : Except String String
  cancelled_at_checkpoint1 : Bool
  cancelled_at_checkpoint2 : Bool
  elapsed : Int
deriving Repr

/-- The constructor arguments of a `CollectorWorker` (the `_cancelled` flag
lives in `SensorEnv`, since it is written from another thread). -/
structure CollectorWorker where
  hostname : String
  ip : String
  duration : Int
  output_folder : String
  upload_to_aws : Bool := true
  sample_rate : Int := 104
deriving DecidableEq, Repr

/-- The download progress callback of `CollectorWorker.run`: the first chunk
flips the status to `DOWNLOADING`, every chunk forwards a progress signal. -/
def CollectorWorker.progressEvents (hostname : String)
    (reports : List (Int × Int)) : List WorkerEvent :=
  match reports with
  | [] => []
  | (d, t) :: rest =>
      WorkerEvent.status_changed hostname .downloading
          ("[" ++ hostname ++ "] Downloading...")
        :: WorkerEvent.progress_updated hostname d t
        :: rest.map (fun p => WorkerEvent.progress_updated hostname p.1 p.2)

/-- The `try` body of `CollectorWorker.run` (everything before `finally`):
returns the `result` as of the end of the body — an early `return` at a
cancellation checkpoint or a raised exception leaves it as last assigned —
and the status/progress events emitted on the way.  Upload exceptions are
caught inside the body; `set_odr` exceptions are swallowed. -/
def CollectorWorker.runBody (w : CollectorWorker) (env : SensorEnv) :
    CollectionResult × List WorkerEvent :=
  let result : CollectionResult := { hostname := w.hostname, success := false }
  let evConnecting := WorkerEvent.status_changed w.hostname .connecting
      ("[" ++ w.hostname ++ "] Connecting...")
  match env.get_status with
  | .error e =>
      ({ result with error_message := some e },
        [evConnecting,
          WorkerEvent.status_changed w.hostname .error
            ("[" ++ w.hostname ++ "] Error: " ++ e)])
  | .ok battery =>
      let evs := [evConnecting,
        WorkerEvent.status_changed w.hostname .connecting
          ("[" ++ w.hostname ++ "] Connected (Battery: " ++ toString battery ++ "%)")]
      if env.cancelled_at_checkpoint1 then
        (result, evs)
      else
        let evs := evs ++
          [WorkerEvent.status_changed w.hostname .collecting
            ("[" ++ w.hostname ++ "] Collecting for " ++ toString w.duration
              ++ "s @ " ++ toString w.sample_rate ++ "Hz...")]
        let evs := evs ++ CollectorWorker.progressEvents w.hostname env.progress_reports
        match env.start_collection with
        | .error e =>
            ({ result with error_message := some e },
              evs ++ [WorkerEvent.status_changed w.hostname .error
                ("[" ++ w.hostname ++ "] Error: " ++ e)])
        | .ok (path, size) =>
            let result := { result with file_path := some path, file_size := size }
            let evs := evs ++ [WorkerEvent.status_changed w.hostname .downloading
              ("[" ++ w.hostname ++ "] Downloaded " ++ toString size ++ " bytes")]
            if env.cancelled_at_checkpoint2 then
              (result, evs)
            else
              let (result, evs) :=
                if w.upload_to_aws then
                  let evs := evs ++ [WorkerEvent.status_changed w.hostname .uploading
                    ("[" ++ w.hostname ++ "] Uploading to AWS...")]
                  match env.upload_to_aws with
                  | .ok st =>
                      ({ result with aws_status := some st },
                        evs ++ [WorkerEvent.status_changed w.hostname .uploading
                          ("[" ++ w.hostname ++ "] AWS: " ++ st)])
                  | .error e =>
                      ({ result with aws_status := some ("Failed: " ++ e) },
                        evs ++ [WorkerEvent.status_changed w.hostname .aws_error
                          ("[" ++ w.hostname ++ "] AWS upload failed: " ++ e)])
                else (result, evs)
              let result := { result with duration := env.elapsed, success := true }
              (result,
                evs ++ [WorkerEvent.status_changed w.hostname .complete
                  ("[" ++ w.hostname ++ "] Complete in " ++ toString env.elapsed ++ "s")])

/-- Embeds `CollectorWorker.run`: the `try` body followed by the `finally` block,
which stamps the elapsed duration into the result and emits the completion
signal exactly once, on every exit path. -/
def CollectorWorker.run (w : CollectorWorker) (env : SensorEnv) :
    CollectionResult × List WorkerEvent :=
  let result := { (w.runBody env).1 with duration := env.elapsed }
  (result, (w.runBody env).2 ++ [WorkerEvent.collection_complete w.hostname result])

/-- The registry entry the `CollectorService` keeps per hostname: the worker
and whether its thread is running (`QThread.isRunning`). -/
structure WorkerEntry where
  worker : CollectorWorker
  running : Bool
deriving DecidableEq, Repr

/-- Embeds `CollectorService` state: the `_workers` dict. -/
structure CollectorService where
  workers : List (String × WorkerEntry) := []
deriving DecidableEq, Repr

/-- Embeds `CollectorService.is_busy`: a worker for the hostname exists and its
thread is running. -/
def CollectorService.is_busy (s : CollectorService) (hostname : String) : Bool :=
  match Dict.get? s.workers hostname with
  | some e => e.running
  | none => false

/-- Embeds `CollectorService.start_collection`: reject when busy, otherwise create,
register and start a worker (`worker.start()` makes its thread running). -/
def CollectorService.start_collection (s : CollectorService) (hostname ip : String)
    (duration : Int) (output_folder : String) (upload_to_aws : Bool := true)
    (sample_rate : Int := 104) : CollectorService × Bool :=
  if s.is_busy hostname then (s, false)
  else
    let worker : CollectorWorker :=
      { hostname := hostname, ip := ip, duration := duration,
        output_folder := output_folder, upload_to_aws := upload_to_aws,
        sample_rate := sample_rate }
    ({ workers := Dict.set s.workers hostname ⟨worker, true⟩ }, true)

/-- Embeds `CollectorService._on_complete`: forward the completion signal and delete
the finished worker from the registry. -/
def CollectorService.on_complete (s : CollectorService) (hostname : String) :
    CollectorService :=
  { workers := Dict.eraseAll s.workers hostname }

/-! ### `services/multi_scheduler.py` -/

/-- The Qt signals the scheduler emits, as explicit events. -/
inductive SchedEvent
  | trigger_collection (hostname : String)
  | countdown_tick (hostname : String) (seconds : Int)
  | sensor_started (hostname : String)
  | sensor_stopped (hostname : String)
deriving DecidableEq, Repr

/-- Embeds `MultiSensorScheduler` state: the `_sensors` and `_collecting` dicts and
whether the shared 1-second `QTimer` is active. -/
structure MultiSensorScheduler where
  sensors : List (String × SensorConfig) := []
  collecting : List (String × Bool) := []
  timer_active : Bool := false
deriving DecidableEq, Repr

/-- Embeds `MultiSensorScheduler._any_running`. -/
def MultiSensorScheduler.any_running (s : MultiSensorScheduler) : Bool :=
  s.sensors.any (fun p => p.2.is_running)

/-- Embeds `MultiSensorScheduler._ensure_timer_running`. -/
def MultiSensorScheduler.ensure_timer_running (s : MultiSensorScheduler) :
    MultiSensorScheduler :=
  if s.any_running ∧ ¬ s.timer_active then { s with timer_active := true } else s

/-- Embeds `MultiSensorScheduler.register_sensor`. -/
def MultiSensorScheduler.register_sensor (s : MultiSensorScheduler)
    (config : SensorConfig) : MultiSensorScheduler :=
  { s with
    sensors := Dict.set s.sensors config.hostname config,
    collecting := Dict.set s.collecting config.hostname false }

/-- Embeds `MultiSensorScheduler._trigger_sensor`: emit the collection trigger unless
the sensor is currently collecting (`self._collecting.get(hostname, False)`). -/
def MultiSensorScheduler.trigger_sensor (s : MultiSensorScheduler)
    (hostname : String) : List SchedEvent :=
  if (Dict.get? s.collecting hostname).getD false then []
  else [SchedEvent.trigger_collection hostname]

/-- Embeds `MultiSensorScheduler.stop_sensor`: mark the sensor idle and not running,
zero its countdown and collecting flag, emit `sensor_stopped`; stop the shared
timer when no sensor remains running. -/
def MultiSensorScheduler.stop_sensor (s : MultiSensorScheduler)
    (hostname : String) : MultiSensorScheduler × List SchedEvent :=
  let p :=
    match Dict.get? s.sensors hostname with
    | some config =>
        let config := { config with
          is_running := false, status := SensorStatus.idle, countdown_seconds := 0 }
        ({ s with
            sensors := Dict.set s.sensors hostname config,
            collecting := Dict.set s.collecting hostname false },
          [SchedEvent.sensor_stopped hostname])
    | none => (s, [])
  if ¬ (p.1).any_running then ({ p.1 with timer_active := false }, p.2) else p

/-- Embeds `MultiSensorScheduler.start_sensor`: fail when the hostname is unknown or
the sensor is not configured; otherwise mark it running and waiting, reset its
repetitions, then either trigger immediately or reset the countdown, ensure
the timer runs, and emit `sensor_started`. -/
def MultiSensorScheduler.start_sensor (s : MultiSensorScheduler)
    (hostname : String) (run_immediately : Bool := true) :
    MultiSensorScheduler × List SchedEvent × Bool :=
  match Dict.get? s.sensors hostname with
  | none => (s, [], false)
  | some config =>
      if ¬ config.is_configured then (s, [], false)
      else
        let config := { config with
          is_running := true, status := SensorStatus.waiting }
        let config := config.reset_repetitions
        let (config, evs) :=
          if run_immediately then (config, s.trigger_sensor hostname)
          else (config.reset_countdown, [])
        let s := { s with sensors := Dict.set s.sensors hostname config }
        let s := s.ensure_timer_running
        (s, evs ++ [SchedEvent.sensor_started hostname], true)

/-- Embeds `MultiSensorScheduler.unregister_sensor`: stop the sensor first, then drop
both dict entries. -/
def MultiSensorScheduler.unregister_sensor (s : MultiSensorScheduler)
    (hostname : String) : MultiSensorScheduler × List SchedEvent :=
  match Dict.get? s.sensors hostname with
  | some _ =>
      let (s, evs) := s.stop_sensor hostname
      ({ s with
          sensors := Dict.eraseAll s.sensors hostname,
          collecting := Dict.eraseAll s.collecting hostname }, evs)
  | none => (s, [])

/-- Embeds `MultiSensorScheduler.notify_collection_started`. -/
def MultiSensorScheduler.notify_collection_started (s : MultiSensorScheduler)
    (hostname : String) : MultiSensorScheduler :=
  let s := { s with collecting := Dict.set s.collecting hostname true }
  match Dict.get? s.sensors hostname with
  | some config =>
      let config := { config with status := SensorStatus.collecting }
      { s with sensors := Dict.set s.sensors hostname config }
  | none => s

/-- Embeds `MultiSensorScheduler.notify_collection_complete`: clear the collecting
flag; for a registered, running sensor evaluate the stop policy once — stop
the sensor when it says so, otherwise return to `WAITING` and reset the
countdown. -/
def MultiSensorScheduler.notify_collection_complete (s : MultiSensorScheduler)
    (hostname : String) (now : Int) : MultiSensorScheduler × List SchedEvent :=
  let s := { s with collecting := Dict.set s.collecting hostname false }
  match Dict.get? s.sensors hostname with
  | none => (s, [])
  | some config =>
      if config.is_running then
        let (config, stop) := config.should_stop_after_collection now
        let s := { s with sensors := Dict.set s.sensors hostname config }
        if stop then s.stop_sensor hostname
        else
          let config := SensorConfig.reset_countdown { config with status := SensorStatus.waiting }
          ({ s with sensors := Dict.set s.sensors hostname config }, [])
      else (s, [])

/-- One sensor's share of `MultiSensorScheduler._on_tick`: skipped unless it
is running, not currently collecting, and `WAITING`; otherwise its countdown
ticks, the new value is emitted, and reaching zero triggers collection
(`_trigger_sensor` re-reads the collecting flag, still false here). -/
def MultiSensorScheduler.tickSensor (hostname : String) (is_collecting : Bool)
    (config : SensorConfig) : SensorConfig × List SchedEvent :=
  if ¬ config.is_running then (config, [])
  else if is_collecting then (config, [])
  else if config.status = SensorStatus.waiting then
    let (config, reached_zero) := config.tick_countdown
    let evs := [SchedEvent.countdown_tick hostname config.countdown_seconds]
    if reached_zero then
      (config, evs ++ [SchedEvent.trigger_collection hostname])
    else (config, evs)
  else (config, [])

/-- Embeds `MultiSensorScheduler._on_tick`: apply `tickSensor` to every registered
sensor, in registry order, concatenating the emitted events. -/
def MultiSensorScheduler.on_tick (s : MultiSensorScheduler) :
    MultiSensorScheduler × List SchedEvent :=
  ({ s with sensors := s.sensors.map (fun p =>
      (p.1, (MultiSensorScheduler.tickSensor p.1
        ((Dict.get? s.collecting p.1).getD false) p.2).1)) },
    (s.sensors.map (fun p =>
      (MultiSensorScheduler.tickSensor p.1
        ((Dict.get? s.collecting p.1).getD false) p.2).2)).flatten)

/-! ### `ui/main_window.py` — `_on_collection_complete`

The main window's `_sensors` dict holds the same `SensorConfig` objects that
it registers with the scheduler, so the two registries alias; the embedding
uses the scheduler's registry for both. -/

/-- Python `s.startswith(pat)` on character lists. -/
def startsWithChars : List Char → List Char → Bool
  | [], _ => true
  | _ :: _, [] => false
  | a :: pat, b :: l => a = b && startsWithChars pat l

/-- Python `pat in s` (substring containment) on character lists. -/
def hasInfixChars (pat : List Char) : List Char → Bool
  | [] => startsWithChars pat []
  | c :: rest => startsWithChars pat (c :: rest) || hasInfixChars pat rest

/-- Python `s.lower()` as a character list. -/
def lowerChars (s : String) : List Char :=
  s.toList.map Char.toLower

/-- The upload-success test of `_on_collection_complete`:
`result.aws_status and "successful" in result.aws_status.lower()`. -/
def awsStatusSuccessful (aws_status : Option String) : Bool :=
  match aws_status with
  | none => false
  | some st => hasInfixChars "successful".toList (lowerChars st)

/-- The per-sensor stats update of `MainWindow._on_collection_complete`:
zero the progress, bump `collections` (and `uploaded` on a successful upload
status) on success or `errors` on failure. -/
def MainWindow.apply_result_stats (config : SensorConfig)
    (result : CollectionResult) : SensorConfig :=
  let config := { config with progress := 0 }
  if result.success then
    let stats := { config.stats with collections := config.stats.collections + 1 }
    let stats :=
      if awsStatusSuccessful result.aws_status then
        { stats with uploaded := stats.uploaded + 1 }
      else stats
    { config with stats := stats }
  else
    { config with stats := { config.stats with errors := config.stats.errors + 1 } }

/-- Embeds `MainWindow._on_collection_complete` (its model-state part): for a
registered sensor, apply the result's stats update, then notify the scheduler
that the collection completed. -/
def MainWindow.on_collection_complete (s : MultiSensorScheduler)
    (hostname : String) (result : CollectionResult) (now : Int) :
    MultiSensorScheduler × List SchedEvent :=
  match Dict.get? s.sensors hostname with
  | none => (s, [])
  | some config =>
      let config := MainWindow.apply_result_stats config result
      let s := { s with sensors := Dict.set s.sensors hostname config }
      s.notify_collection_complete hostname now

/-! ### Observation helpers used by the statements -/

/-- Whether a worker event is the terminal completion signal. -/
def WorkerEvent.isComplete : WorkerEvent → Bool
  | .collection_complete _ _ => true
  | _ => false

/-- The hostname a scheduler event is about. -/
def SchedEvent.hostnameOf : SchedEvent → String
  | .trigger_collection h => h
  | .countdown_tick h _ => h
  | .sensor_started h => h
  | .sensor_stopped h => h

/-! ## Theorems -/

/-- C1. Single-flight per device: `start_collection` for a hostname whose
worker is running returns `false` and leaves the service untouched; for an
idle hostname it registers a running worker built from the call's arguments
and returns `true`, and either way every other hostname's registry entry and
busy-state are unaffected. -/
theorem start_collection_single_flight (s : CollectorService)
    (hostname other ip : String) (duration : Int) (output_folder : String)
    (upload_to_aws : Bool) (sample_rate : Int) :
    (s.is_busy hostname = true →
      s.start_collection hostname ip duration output_folder upload_to_aws sample_rate
        = (s, false))
  ∧ (s.is_busy hostname = false →
      (s.start_collection hostname ip duration output_folder upload_to_aws sample_rate).2
          = true
      ∧ Dict.get? (s.start_collection hostname ip duration output_folder
            upload_to_aws sample_rate).1.workers hostname
          = some ⟨{ hostname := hostname, ip := ip, duration := duration,
                    output_folder := output_folder, upload_to_aws := upload_to_aws,
                    sample_rate := sample_rate }, true⟩
      ∧ (s.start_collection hostname ip duration output_folder upload_to_aws
            sample_rate).1.is_busy hostname = true)
  ∧ (other ≠ hostname →
      Dict.get? (s.start_collection hostname ip duration output_folder
            upload_to_aws sample_rate).1.workers other
        = Dict.get? s.workers other
      ∧ (s.start_collection hostname ip duration output_folder upload_to_aws
            sample_rate).1.is_busy other = s.is_busy other) := by
  refine ⟨fun hbusy => ?_, fun hfree => ?_, fun hne => ?_⟩
  · simp [CollectorService.start_collection, hbusy]
  · rw [CollectorService.start_collection, if_neg (by simp [hfree])]
    refine ⟨rfl, ?_, ?_⟩
    · simp [Dict.get_set_self]
    · simp [CollectorService.is_busy, Dict.get_set_self]
  · rw [CollectorService.start_collection]
    by_cases hbusy : s.is_busy hostname = true
    · rw [if_pos hbusy]
      exact ⟨rfl, rfl⟩
    · rw [if_neg hbusy]
      constructor
      · simpa using Dict.get_set_ne s.workers hostname other _ hne
      · simp [CollectorService.is_busy, Dict.get_set_ne _ _ _ _ hne]

/-- Witness for C1 at concrete states: a busy service rejects, an empty
service accepts. -/
theorem start_collection_single_flight_witness :
    (CollectorService.start_collection
        ⟨[("dev1", ⟨⟨"dev1", "10.0.0.5", 10, "/data", true, 104⟩, true⟩)]⟩
        "dev1" "10.0.0.5" 10 "/data" true 104
      = (⟨[("dev1", ⟨⟨"dev1", "10.0.0.5", 10, "/data", true, 104⟩, true⟩)]⟩, false))
  ∧ ((CollectorService.start_collection ⟨[]⟩ "dev2" "10.0.0.6" 20 "/out" false 208).2
      = true) := by
  constructor
  · exact (start_collection_single_flight
      ⟨[("dev1", ⟨⟨"dev1", "10.0.0.5", 10, "/data", true, 104⟩, true⟩)]⟩
      "dev1" "x" "10.0.0.5" 10 "/data" true 104).1 (by decide)
  · exact ((start_collection_single_flight ⟨[]⟩ "dev2" "x" "10.0.0.6" 20 "/out"
      false 208).2.1 (by decide)).1

/-- The progress callback never emits a completion signal. -/
theorem progressEvents_filter_complete (h : String) (reports : List (Int × Int)) :
    (CollectorWorker.progressEvents h reports).filter WorkerEvent.isComplete = [] := by
  cases reports with
  | nil => rfl
  | cons p rest =>
      obtain ⟨d, t⟩ := p
      simp only [CollectorWorker.progressEvents, List.filter_cons]
      induction rest with
      | nil => rfl
      | cons q rest ih =>
          obtain ⟨d', t'⟩ := q
          simpa [WorkerEvent.isComplete] using ih

/-- The `try` body of a worker run never emits a completion signal. -/
theorem runBody_filter_complete (w : CollectorWorker) (env : SensorEnv) :
    ((w.runBody env).2).filter WorkerEvent.isComplete = [] := by
  obtain ⟨gs, so, pr, sc, up, c1, c2, el⟩ := env
  unfold CollectorWorker.runBody
  rcases gs with e | battery
  · simp [WorkerEvent.isComplete]
  · cases c1
    · rcases sc with e | ⟨path, size⟩
      · simp [WorkerEvent.isComplete, List.filter_append, progressEvents_filter_complete]
      · cases c2
        · by_cases hw : w.upload_to_aws = true
          · rcases up with e | st <;>
              simp [hw, WorkerEvent.isComplete, List.filter_append,
                progressEvents_filter_complete]
          · simp [hw, WorkerEvent.isComplete, List.filter_append,
              progressEvents_filter_complete]
        · simp [WorkerEvent.isComplete, List.filter_append, progressEvents_filter_complete]
    · simp [WorkerEvent.isComplete]

/-- A worker run's completion events are exactly one, carrying its result. -/
theorem run_filter_complete (w : CollectorWorker) (env : SensorEnv) :
    ((w.run env).2).filter WorkerEvent.isComplete
      = [WorkerEvent.collection_complete w.hostname (w.run env).1] := by
  unfold CollectorWorker.run
  simp [List.filter_append, runBody_filter_complete, WorkerEvent.isComplete]

/-- C7. Exactly-once completion with guaranteed cleanup: every worker run —
whatever the outcomes of its network calls and cancellation checkpoints —
emits exactly one completion event, carrying its result with the elapsed
duration stamped in; the service's completion handler then removes the job
from the worker registry, after which the hostname is no longer busy and a
new `start_collection` for it is accepted. -/
theorem run_exactly_once_completion_and_cleanup (w : CollectorWorker)
    (env : SensorEnv) (svc : CollectorService) (ip : String) (duration : Int)
    (folder : String) (upload : Bool) (rate : Int) :
    ((w.run env).2).filter WorkerEvent.isComplete
        = [WorkerEvent.collection_complete w.hostname (w.run env).1]
  ∧ (w.run env).1.duration = env.elapsed
  ∧ (svc.on_complete w.hostname).is_busy w.hostname = false
  ∧ ((svc.on_complete w.hostname).start_collection w.hostname ip duration folder
        upload rate).2 = true := by
  refine ⟨run_filter_complete w env, rfl, ?_, ?_⟩
  · simp [CollectorService.on_complete, CollectorService.is_busy,
      Dict.get_eraseAll_self]
  · simp [CollectorService.start_collection, CollectorService.is_busy,
      CollectorService.on_complete, Dict.get_eraseAll_self]

/-- Overwriting the same key twice keeps only the second value. -/
theorem Dict.set_set {α : Type} (m : List (String × α)) (k : String) (v v' : α) :
    Dict.set (Dict.set m k v) k v' = Dict.set m k v' := by
  induction m with
  | nil => simp [Dict.set]
  | cons p rest ih =>
      obtain ⟨k₀, v₀⟩ := p
      by_cases h : k₀ = k
      · simp [Dict.set, h]
      · simp [Dict.set, h, ih]

/-- The stop-policy check only touches `remaining_repetitions`. -/
theorem should_stop_preserves (c : SensorConfig) (now : Int) :
    ((c.should_stop_after_collection now).1).stats = c.stats
  ∧ ((c.should_stop_after_collection now).1).status = c.status
  ∧ ((c.should_stop_after_collection now).1).is_running = c.is_running
  ∧ ((c.should_stop_after_collection now).1).countdown_seconds = c.countdown_seconds
  ∧ ((c.should_stop_after_collection now).1).interval_seconds = c.interval_seconds
  ∧ ((c.should_stop_after_collection now).1).hostname = c.hostname
  ∧ ((c.should_stop_after_collection now).1).stop_mode = c.stop_mode
  ∧ ((c.should_stop_after_collection now).1).stop_at_time = c.stop_at_time
  ∧ ((c.should_stop_after_collection now).1).repetition_count = c.repetition_count := by
  unfold SensorConfig.should_stop_after_collection
  cases hsm : c.stop_mode
  · simp [hsm]
  · simp [hsm, SensorConfig.interval_seconds]
  · cases hsat : c.stop_at_time <;> simp [hsm, hsat]

/-- In `AFTER_COUNT` mode the stop-policy check decrements the remaining
repetitions and stops exactly when the decremented value is ≤ 0. -/
theorem should_stop_after_count (c : SensorConfig) (now : Int)
    (hmode : c.stop_mode = StopMode.after_count) :
    ((c.should_stop_after_collection now).1).remaining_repetitions
        = c.remaining_repetitions - 1
  ∧ ((c.should_stop_after_collection now).2 = true
        ↔ c.remaining_repetitions - 1 ≤ 0) := by
  unfold SensorConfig.should_stop_after_collection
  simp [hmode]

/-- The stats update of the completion handler, spelled out; every field that
scheduling reads is preserved. -/
theorem apply_result_stats_spec (c : SensorConfig) (r : CollectionResult) :
    (MainWindow.apply_result_stats c r).stats.collections
        = c.stats.collections + (if r.success = true then 1 else 0)
  ∧ (MainWindow.apply_result_stats c r).stats.uploaded
        = c.stats.uploaded
          + (if r.success = true ∧ awsStatusSuccessful r.aws_status = true then 1 else 0)
  ∧ (MainWindow.apply_result_stats c r).stats.errors
        = c.stats.errors + (if r.success = true then 0 else 1)
  ∧ (MainWindow.apply_result_stats c r).status = c.status
  ∧ (MainWindow.apply_result_stats c r).is_running = c.is_running
  ∧ (MainWindow.apply_result_stats c r).countdown_seconds = c.countdown_seconds
  ∧ (MainWindow.apply_result_stats c r).remaining_repetitions
        = c.remaining_repetitions
  ∧ (MainWindow.apply_result_stats c r).stop_mode = c.stop_mode
  ∧ (MainWindow.apply_result_stats c r).stop_at_time = c.stop_at_time
  ∧ (MainWindow.apply_result_stats c r).repetition_count = c.repetition_count
  ∧ (MainWindow.apply_result_stats c r).interval_seconds = c.interval_seconds
  ∧ (MainWindow.apply_result_stats c r).hostname = c.hostname := by
  unfold MainWindow.apply_result_stats
  cases hs : r.success
  · simp [SensorConfig.interval_seconds]
  · cases hu : awsStatusSuccessful r.aws_status <;>
      simp [SensorConfig.interval_seconds, hu]

/-- Scheduler-side completion for a registered sensor that is not running:
only the collecting flag is cleared. -/
theorem notify_complete_not_running (s : MultiSensorScheduler) (h : String)
    (c : SensorConfig) (now : Int) (hreg : Dict.get? s.sensors h = some c)
    (hrun : c.is_running = false) :
    s.notify_collection_complete h now
      = ({ s with collecting := Dict.set s.collecting h false }, []) := by
  unfold MultiSensorScheduler.notify_collection_complete
  simp only [hreg, hrun]
  simp

/-- Scheduler-side completion for an unregistered hostname: only the
collecting flag is cleared. -/
theorem notify_complete_unregistered (s : MultiSensorScheduler) (h : String)
    (now : Int) (hreg : Dict.get? s.sensors h = none) :
    s.notify_collection_complete h now
      = ({ s with collecting := Dict.set s.collecting h false }, []) := by
  unfold MultiSensorScheduler.notify_collection_complete
  simp only [hreg]

/-- Stopping a sensor rewrites its registry entry to the idle, not-running,
zero-countdown version of whatever was registered. -/
theorem stop_sensor_lookup (s : MultiSensorScheduler) (h : String)
    (c : SensorConfig) (hreg : Dict.get? s.sensors h = some c) :
    Dict.get? ((s.stop_sensor h).1).sensors h
        = some { c with is_running := false, status := SensorStatus.idle, countdown_seconds := 0 }
  ∧ (s.stop_sensor h).2 = [SchedEvent.sensor_stopped h] := by
  unfold MultiSensorScheduler.stop_sensor
  simp only [hreg]
  constructor
  · split <;> simp [Dict.get_set_self]
  · split <;> rfl

/-- Scheduler-side completion for a registered running sensor whose stop
policy says to re-arm: back to `WAITING` with the countdown reset. -/
theorem notify_complete_rearm (s : MultiSensorScheduler) (h : String)
    (c : SensorConfig) (now : Int) (hreg : Dict.get? s.sensors h = some c)
    (hrun : c.is_running = true)
    (hstop : (c.should_stop_after_collection now).2 = false) :
    Dict.get? ((s.notify_collection_complete h now).1).sensors h
        = some (SensorConfig.reset_countdown { (c.should_stop_after_collection now).1 with status := SensorStatus.waiting })
  ∧ (s.notify_collection_complete h now).2 = [] := by
  rcases hdec : c.should_stop_after_collection now with ⟨c₂, stop⟩
  rw [hdec] at hstop
  unfold MultiSensorScheduler.notify_collection_complete
  simp only [hreg, hrun, hdec, hstop]
  simp [Dict.set_set, Dict.get_set_self]

/-- Scheduler-side completion for a registered running sensor whose stop
policy says to stop: the sensor is stopped. -/
theorem notify_complete_stop (s : MultiSensorScheduler) (h : String)
    (c : SensorConfig) (now : Int) (hreg : Dict.get? s.sensors h = some c)
    (hrun : c.is_running = true)
    (hstop : (c.should_stop_after_collection now).2 = true) :
    Dict.get? ((s.notify_collection_complete h now).1).sensors h
        = some { (c.should_stop_after_collection now).1 with is_running := false, status := SensorStatus.idle, countdown_seconds := 0 }
  ∧ (s.notify_collection_complete h now).2 = [SchedEvent.sensor_stopped h] := by
  rcases hdec : c.should_stop_after_collection now with ⟨c₂, stop⟩
  rw [hdec] at hstop
  unfold MultiSensorScheduler.notify_collection_complete
  simp only [hreg, hrun, hdec, hstop]
  simp only [if_true]
  have hmid : Dict.get? (MultiSensorScheduler.mk (Dict.set s.sensors h c₂)
      (Dict.set s.collecting h false) s.timer_active).sensors h = some c₂ :=
    Dict.get_set_self _ _ _
  exact ⟨(stop_sensor_lookup _ h c₂ hmid).1, (stop_sensor_lookup _ h c₂ hmid).2⟩

/-- For a registered sensor the completion handler is the stats update
followed by scheduler notification. -/
theorem on_collection_complete_registered (s : MultiSensorScheduler) (h : String)
    (c : SensorConfig) (r : CollectionResult) (now : Int)
    (hreg : Dict.get? s.sensors h = some c) :
    MainWindow.on_collection_complete s h r now
      = MultiSensorScheduler.notify_collection_complete
          { s with sensors := Dict.set s.sensors h (MainWindow.apply_result_stats c r) }
          h now := by
  unfold MainWindow.on_collection_complete
  simp only [hreg]

/-- For an unregistered hostname the completion handler does nothing. -/
theorem on_collection_complete_unregistered (s : MultiSensorScheduler)
    (h : String) (r : CollectionResult) (now : Int)
    (hreg : Dict.get? s.sensors h = none) :
    MainWindow.on_collection_complete s h r now = (s, []) := by
  unfold MainWindow.on_collection_complete
  simp only [hreg]

/-- The stop-policy outcome only reads `stop_mode`, `remaining_repetitions`
and `stop_at_time`. -/
theorem should_stop_congr (c₁ c₂ : SensorConfig) (now : Int)
    (hm : c₁.stop_mode = c₂.stop_mode)
    (hr : c₁.remaining_repetitions = c₂.remaining_repetitions)
    (ht : c₁.stop_at_time = c₂.stop_at_time) :
    ((c₁.should_stop_after_collection now).2
        = (c₂.should_stop_after_collection now).2)
  ∧ (((c₁.should_stop_after_collection now).1).remaining_repetitions
        = ((c₂.should_stop_after_collection now).1).remaining_repetitions) := by
  unfold SensorConfig.should_stop_after_collection
  cases hsm : c₂.stop_mode
  · simp [hm, hsm, hr]
  · simp [hm, hsm, hr]
  · cases hsat : c₂.stop_at_time <;> simp [hm, hsm, hr, ht, hsat]

/-- Completion handling updates exactly the stats the result calls for,
whatever the stop policy then decides about re-arming. -/
theorem on_complete_stats (s : MultiSensorScheduler) (h : String)
    (c : SensorConfig) (r : CollectionResult) (now : Int)
    (hreg : Dict.get? s.sensors h = some c) :
    ∃ c', Dict.get? ((MainWindow.on_collection_complete s h r now).1).sensors h
        = some c'
      ∧ c'.stats.collections = c.stats.collections + (if r.success = true then 1 else 0)
      ∧ c'.stats.uploaded = c.stats.uploaded
          + (if r.success = true ∧ awsStatusSuccessful r.aws_status = true then 1 else 0)
      ∧ c'.stats.errors = c.stats.errors + (if r.success = true then 0 else 1) := by
  obtain ⟨hcol, hupl, herr, _⟩ := apply_result_stats_spec c r
  rw [on_collection_complete_registered s h c r now hreg]
  have hreg₁ : Dict.get?
      ({ s with sensors := Dict.set s.sensors h (MainWindow.apply_result_stats c r) } :
        MultiSensorScheduler).sensors h = some (MainWindow.apply_result_stats c r) :=
    Dict.get_set_self _ _ _
  cases hrun : (MainWindow.apply_result_stats c r).is_running
  · rw [notify_complete_not_running _ h _ now hreg₁ hrun]
    exact ⟨_, hreg₁, by simp [hcol], by simp [hupl], by simp [herr]⟩
  · cases hstop : ((MainWindow.apply_result_stats c r).should_stop_after_collection now).2
    · obtain ⟨hget, _⟩ := notify_complete_rearm _ h _ now hreg₁ hrun hstop
      refine ⟨_, hget, ?_, ?_, ?_⟩ <;>
        simp [SensorConfig.reset_countdown,
          (should_stop_preserves (MainWindow.apply_result_stats c r) now).1,
          hcol, hupl, herr]
    · obtain ⟨hget, _⟩ := notify_complete_stop _ h _ now hreg₁ hrun hstop
      refine ⟨_, hget, ?_, ?_, ?_⟩ <;>
        simp [(should_stop_preserves (MainWindow.apply_result_stats c r) now).1,
          hcol, hupl, herr]

/-- Completion handling of a registered running sensor re-arms or stops
exactly as the stop policy, evaluated on the pre-completion registry entry,
dictates; the re-arm decision is independent of the result carried by the
completion. -/
theorem on_complete_scheduling (s : MultiSensorScheduler) (h : String)
    (c : SensorConfig) (r : CollectionResult) (now : Int)
    (hreg : Dict.get? s.sensors h = some c) (hrun : c.is_running = true) :
    ∃ c', Dict.get? ((MainWindow.on_collection_complete s h r now).1).sensors h
        = some c'
      ∧ c'.remaining_repetitions
          = ((c.should_stop_after_collection now).1).remaining_repetitions
      ∧ c'.stop_mode = c.stop_mode
      ∧ c'.stop_at_time = c.stop_at_time
      ∧ c'.repetition_count = c.repetition_count
      ∧ (if (c.should_stop_after_collection now).2 = true then
            c'.is_running = false ∧ c'.status = SensorStatus.idle
              ∧ c'.countdown_seconds = 0
          else
            c'.is_running = true ∧ c'.status = SensorStatus.waiting
              ∧ c'.countdown_seconds = c.interval_seconds) := by
  obtain ⟨_, _, _, hst, hrun₁, hcd, hrem, hsm, hsat, hrc, hint, _⟩ :=
    apply_result_stats_spec c r
  obtain ⟨pst, psta, prun, pcd, pint, phn, psm, psat, prc⟩ :=
    should_stop_preserves (MainWindow.apply_result_stats c r) now
  have hcongr := should_stop_congr (MainWindow.apply_result_stats c r) c now hsm hrem hsat
  rw [on_collection_complete_registered s h c r now hreg]
  have hreg₁ : Dict.get?
      ({ s with sensors := Dict.set s.sensors h (MainWindow.apply_result_stats c r) } :
        MultiSensorScheduler).sensors h = some (MainWindow.apply_result_stats c r) :=
    Dict.get_set_self _ _ _
  have hrun' : (MainWindow.apply_result_stats c r).is_running = true :=
    hrun₁.trans hrun
  cases hstop : (c.should_stop_after_collection now).2
  · have hstop₁ : ((MainWindow.apply_result_stats c r).should_stop_after_collection
        now).2 = false := hcongr.1.trans hstop
    obtain ⟨hget, _⟩ := notify_complete_rearm _ h _ now hreg₁ hrun' hstop₁
    refine ⟨_, hget, ?_, ?_, ?_, ?_, ?_⟩
    · simpa [SensorConfig.reset_countdown] using hcongr.2
    · simpa [SensorConfig.reset_countdown] using psm.trans hsm
    · simpa [SensorConfig.reset_countdown] using psat.trans hsat
    · simpa [SensorConfig.reset_countdown] using prc.trans hrc
    · simp only [hstop, Bool.false_eq_true, if_false]
      refine ⟨?_, ?_, ?_⟩
      · simpa [SensorConfig.reset_countdown] using prun.trans hrun'
      · simp [SensorConfig.reset_countdown]
      · simpa [SensorConfig.reset_countdown, SensorConfig.interval_seconds]
          using pint.trans hint
  · have hstop₁ : ((MainWindow.apply_result_stats c r).should_stop_after_collection
        now).2 = true := hcongr.1.trans hstop
    obtain ⟨hget, _⟩ := notify_complete_stop _ h _ now hreg₁ hrun' hstop₁
    refine ⟨_, hget, ?_, ?_, ?_, ?_, ?_⟩
    · simpa using hcongr.2
    · simpa using psm.trans hsm
    · simpa using psat.trans hsat
    · simpa using prc.trans hrc
    · simp [hstop]

/-- C3. Errors never halt scheduling on their own: completion of a failed
cycle for a registered running sensor increments only `errors`, reaches the
same re-arm decision as a successful cycle would, and — whenever the stop
policy does not independently say stop — leaves the sensor running, `WAITING`
and with the countdown reset to the interval. -/
theorem failed_cycle_rearms_like_success (s : MultiSensorScheduler) (h : String)
    (c : SensorConfig) (r r' : CollectionResult) (now : Int)
    (hreg : Dict.get? s.sensors h = some c) (hrun : c.is_running = true)
    (hfail : r.success = false) (hsucc : r'.success = true) :
    (∃ cf, Dict.get? ((MainWindow.on_collection_complete s h r now).1).sensors h
        = some cf
      ∧ cf.stats.errors = c.stats.errors + 1
      ∧ cf.stats.collections = c.stats.collections
      ∧ cf.stats.uploaded = c.stats.uploaded)
  ∧ (∀ cf cs,
      Dict.get? ((MainWindow.on_collection_complete s h r now).1).sensors h
          = some cf →
      Dict.get? ((MainWindow.on_collection_complete s h r' now).1).sensors h
          = some cs →
      cf.is_running = cs.is_running ∧ cf.status = cs.status
        ∧ cf.countdown_seconds = cs.countdown_seconds
        ∧ cf.remaining_repetitions = cs.remaining_repetitions)
  ∧ ((c.should_stop_after_collection now).2 = false →
      ∃ cf, Dict.get? ((MainWindow.on_collection_complete s h r now).1).sensors h
          = some cf
        ∧ cf.is_running = true ∧ cf.status = SensorStatus.waiting
        ∧ cf.countdown_seconds = c.interval_seconds) := by
  obtain ⟨cf₀, hgf, hcolf, huplf, herrf⟩ := on_complete_stats s h c r now hreg
  obtain ⟨cf₁, hgf₁, hremf, _, _, _, hcondf⟩ :=
    on_complete_scheduling s h c r now hreg hrun
  obtain ⟨cs₁, hgs₁, hrems, _, _, _, hconds⟩ :=
    on_complete_scheduling s h c r' now hreg hrun
  refine ⟨⟨cf₀, hgf, ?_, ?_, ?_⟩, ?_, ?_⟩
  · simpa [hfail] using herrf
  · simpa [hfail] using hcolf
  · simpa [hfail] using huplf
  · intro cf cs hf hs
    obtain rfl : cf₁ = cf := Option.some.inj (hgf₁.symm.trans hf)
    obtain rfl : cs₁ = cs := Option.some.inj (hgs₁.symm.trans hs)
    cases hstop : (c.should_stop_after_collection now).2
    · rw [hstop] at hcondf hconds
      simp only [Bool.false_eq_true, if_false] at hcondf hconds
      exact ⟨hcondf.1.trans hconds.1.symm, hcondf.2.1.trans hconds.2.1.symm,
        hcondf.2.2.trans hconds.2.2.symm, hremf.trans hrems.symm⟩
    · rw [hstop] at hcondf hconds
      simp only [if_true] at hcondf hconds
      exact ⟨hcondf.1.trans hconds.1.symm, hcondf.2.1.trans hconds.2.1.symm,
        hcondf.2.2.trans hconds.2.2.symm, hremf.trans hrems.symm⟩
  · intro hns
    rw [hns] at hcondf
    simp only [Bool.false_eq_true, if_false] at hcondf
    exact ⟨cf₁, hgf₁, hcondf.1, hcondf.2.1, hcondf.2.2⟩

/-- Witness for C3: a registered running continuous-mode sensor, one failed
and one successful result. -/
theorem failed_cycle_rearms_like_success_witness :
    ∃ cf, Dict.get? ((MainWindow.on_collection_complete
        ⟨[("a", ⟨"a", "10.0.0.2", 10, 5, IntervalUnit.minutes, 104, some "/o",
            true, StopMode.continuous, 1, none, 0, SensorStatus.waiting, true,
            30, ⟨4, 2, 1⟩, 0⟩)], [("a", false)], true⟩
        "a" ⟨"a", false, none, 0, none, some "boom", 3⟩ 0).1).sensors "a"
        = some cf
      ∧ cf.stats.errors = (1 : Int) + 1
      ∧ cf.stats.collections = (4 : Int)
      ∧ cf.stats.uploaded = (2 : Int) :=
  (failed_cycle_rearms_like_success
    ⟨[("a", ⟨"a", "10.0.0.2", 10, 5, IntervalUnit.minutes, 104, some "/o",
        true, StopMode.continuous, 1, none, 0, SensorStatus.waiting, true,
        30, ⟨4, 2, 1⟩, 0⟩)], [("a", false)], true⟩
    "a"
    ⟨"a", "10.0.0.2", 10, 5, IntervalUnit.minutes, 104, some "/o",
        true, StopMode.continuous, 1, none, 0, SensorStatus.waiting, true,
        30, ⟨4, 2, 1⟩, 0⟩
    ⟨"a", false, none, 0, none, some "boom", 3⟩
    ⟨"a", true, some "/o/f.csv", 9, none, none, 3⟩
    0 rfl rfl rfl rfl).1

/-- C8. Trailing job does not re-arm a stopped device: completion for a
registered sensor with `is_running = false` still updates its stats but
leaves it unscheduled — status, countdown and `is_running` unchanged, and no
scheduler events; completion for an unregistered hostname changes nothing. -/
theorem trailing_job_does_not_rearm (s : MultiSensorScheduler) (h : String)
    (c : SensorConfig) (r : CollectionResult) (now : Int) :
    (Dict.get? s.sensors h = some c → c.is_running = false →
      ∃ c', Dict.get? ((MainWindow.on_collection_complete s h r now).1).sensors h
          = some c'
        ∧ c'.stats.collections
            = c.stats.collections + (if r.success = true then 1 else 0)
        ∧ c'.stats.errors = c.stats.errors + (if r.success = true then 0 else 1)
        ∧ c'.is_running = false
        ∧ c'.status = c.status
        ∧ c'.countdown_seconds = c.countdown_seconds
        ∧ (MainWindow.on_collection_complete s h r now).2 = [])
  ∧ (Dict.get? s.sensors h = none →
      MainWindow.on_collection_complete s h r now = (s, [])) := by
  constructor
  · intro hreg hrun
    obtain ⟨hcol, hupl, herr, hst, hrun₁, hcd, _⟩ := apply_result_stats_spec c r
    rw [on_collection_complete_registered s h c r now hreg]
    have hreg₁ : Dict.get?
        ({ s with sensors := Dict.set s.sensors h (MainWindow.apply_result_stats c r) } :
          MultiSensorScheduler).sensors h = some (MainWindow.apply_result_stats c r) :=
      Dict.get_set_self _ _ _
    rw [notify_complete_not_running _ h _ now hreg₁ (hrun₁.trans hrun)]
    exact ⟨_, hreg₁, hcol, herr, hrun₁.trans hrun, hst, hcd, rfl⟩
  · exact on_collection_complete_unregistered s h r now

/-- Witness for C8: a stopped but registered sensor receives a successful
trailing result — stats bump, scheduling state untouched. -/
theorem trailing_job_does_not_rearm_witness :
    ∃ c', Dict.get? ((MainWindow.on_collection_complete
        ⟨[("b", ⟨"b", "10.0.0.3", 10, 5, IntervalUnit.minutes, 104, some "/o",
            true, StopMode.continuous, 1, none, 0, SensorStatus.idle, false,
            0, ⟨7, 5, 2⟩, 0⟩)], [("b", false)], false⟩
        "b" ⟨"b", true, some "/o/g.csv", 11, some "Upload successful", none, 4⟩
        0).1).sensors "b" = some c'
      ∧ c'.stats.collections = (7 : Int) + (if (true : Bool) = true then 1 else 0)
      ∧ c'.stats.errors = (2 : Int) + (if (true : Bool) = true then 0 else 1)
      ∧ c'.is_running = false
      ∧ c'.status = SensorStatus.idle
      ∧ c'.countdown_seconds = (0 : Int)
      ∧ (MainWindow.on_collection_complete
          ⟨[("b", ⟨"b", "10.0.0.3", 10, 5, IntervalUnit.minutes, 104, some "/o",
              true, StopMode.continuous, 1, none, 0, SensorStatus.idle, false,
              0, ⟨7, 5, 2⟩, 0⟩)], [("b", false)], false⟩
          "b" ⟨"b", true, some "/o/g.csv", 11, some "Upload successful", none, 4⟩
          0).2 = [] :=
  (trailing_job_does_not_rearm
    ⟨[("b", ⟨"b", "10.0.0.3", 10, 5, IntervalUnit.minutes, 104, some "/o",
        true, StopMode.continuous, 1, none, 0, SensorStatus.idle, false,
        0, ⟨7, 5, 2⟩, 0⟩)], [("b", false)], false⟩
    "b"
    ⟨"b", "10.0.0.3", 10, 5, IntervalUnit.minutes, 104, some "/o",
        true, StopMode.continuous, 1, none, 0, SensorStatus.idle, false,
        0, ⟨7, 5, 2⟩, 0⟩
    ⟨"b", true, some "/o/g.csv", 11, some "Upload successful", none, 4⟩
    0).1 rfl rfl

/-- C9. A cancelled job is reported as a failure without an error message:
cancellation observed at either checkpoint yields a result with
`success = false` and `error_message = none`; at the second checkpoint the
result nevertheless carries the downloaded file's path and size, and such a
completion is counted toward `errors`, not `collections`. -/
theorem cancelled_job_reported_as_failure (w : CollectorWorker) (env : SensorEnv)
    (battery : Int) (path : String) (size : Int) (s : MultiSensorScheduler)
    (c : SensorConfig) (now : Int)
    (hgs : env.get_status = Except.ok battery)
    (hreg : Dict.get? s.sensors w.hostname = some c) :
    (env.cancelled_at_checkpoint1 = true →
      (w.run env).1 = ⟨w.hostname, false, none, 0, none, none, env.elapsed⟩)
  ∧ (env.cancelled_at_checkpoint1 = false →
     env.start_collection = Except.ok (path, size) →
     env.cancelled_at_checkpoint2 = true →
      (w.run env).1 = ⟨w.hostname, false, some path, size, none, none, env.elapsed⟩
      ∧ ∃ c', Dict.get? ((MainWindow.on_collection_complete s w.hostname
            ((w.run env).1) now).1).sensors w.hostname = some c'
          ∧ c'.stats.errors = c.stats.errors + 1
          ∧ c'.stats.collections = c.stats.collections
          ∧ c'.stats.uploaded = c.stats.uploaded) := by
  obtain ⟨gs, so, pr, sc, up, c1, c2, el⟩ := env
  simp only [SensorEnv.get_status] at hgs
  subst hgs
  constructor
  · intro h1
    simp only [SensorEnv.cancelled_at_checkpoint1] at h1
    subst h1
    rfl
  · intro h1 h2 h3
    simp only [SensorEnv.cancelled_at_checkpoint1] at h1
    simp only [SensorEnv.start_collection] at h2
    simp only [SensorEnv.cancelled_at_checkpoint2] at h3
    subst h1; subst h2; subst h3
    refine ⟨rfl, ?_⟩
    obtain ⟨c', hget, hcol, hupl, herr⟩ :=
      on_complete_stats s w.hostname c
        ((w.run ⟨Except.ok battery, so, pr, Except.ok (path, size), up, false,
          true, el⟩).1) now hreg
    have hres : ((w.run ⟨Except.ok battery, so, pr, Except.ok (path, size), up,
        false, true, el⟩).1).success = false := rfl
    simp only [hres, Bool.false_eq_true, if_false, false_and, add_zero]
      at hcol hupl herr
    exact ⟨c', hget, herr, hcol, hupl⟩

/-- Witness for C9: a job cancelled between download and upload, at concrete
inputs: the file is set, the result is an error-free failure, the stats count
it as an error. -/
theorem cancelled_job_reported_as_failure_witness :
    (CollectorWorker.run ⟨"d", "10.0.0.4", 10, "/o", true, 104⟩
        ⟨Except.ok 88, Except.ok (), [(5, 10)], Except.ok ("/o/h.csv", 33),
          Except.ok "Upload successful", false, true, 9⟩).1
      = ⟨"d", false, some "/o/h.csv", 33, none, none, 9⟩
  ∧ ∃ c', Dict.get? ((MainWindow.on_collection_complete
        ⟨[("d", ⟨"d", "10.0.0.4", 10, 5, IntervalUnit.minutes, 104, some "/o",
            true, StopMode.continuous, 1, none, 0, SensorStatus.waiting, true,
            30, ⟨3, 1, 0⟩, 0⟩)], [("d", true)], true⟩
        "d"
        ((CollectorWorker.run ⟨"d", "10.0.0.4", 10, "/o", true, 104⟩
          ⟨Except.ok 88, Except.ok (), [(5, 10)], Except.ok ("/o/h.csv", 33),
            Except.ok "Upload successful", false, true, 9⟩).1)
        0).1).sensors "d" = some c'
      ∧ c'.stats.errors = (0 : Int) + 1
      ∧ c'.stats.collections = (3 : Int)
      ∧ c'.stats.uploaded = (1 : Int) :=
  (cancelled_job_reported_as_failure ⟨"d", "10.0.0.4", 10, "/o", true, 104⟩
    ⟨Except.ok 88, Except.ok (), [(5, 10)], Except.ok ("/o/h.csv", 33),
      Except.ok "Upload successful", false, true, 9⟩
    88 "/o/h.csv" 33
    ⟨[("d", ⟨"d", "10.0.0.4", 10, 5, IntervalUnit.minutes, 104, some "/o",
        true, StopMode.continuous, 1, none, 0, SensorStatus.waiting, true,
        30, ⟨3, 1, 0⟩, 0⟩)], [("d", true)], true⟩
    ⟨"d", "10.0.0.4", 10, 5, IntervalUnit.minutes, 104, some "/o",
        true, StopMode.continuous, 1, none, 0, SensorStatus.waiting, true,
        30, ⟨3, 1, 0⟩, 0⟩
    0 rfl rfl).2 rfl rfl rfl

/-- C4 (amended). Upload failure is non-fatal: when connect/collect/download
succeed and the upload step raises, the result still has `success = true`,
its `aws_status` is `"Failed: <reason>"`, a distinct upload-error status
event is published, and completion increments `collections`; `uploaded` is
left unchanged provided the lowercased failure status does not contain
`"successful"` (the code increments `uploaded` exactly when the lowercased
`aws_status` contains that substring). -/
theorem upload_failure_nonfatal (w : CollectorWorker) (env : SensorEnv)
    (battery : Int) (path : String) (size : Int) (reason : String)
    (s : MultiSensorScheduler) (c : SensorConfig) (now : Int)
    (hupload : w.upload_to_aws = true)
    (hgs : env.get_status = Except.ok battery)
    (hc1 : env.cancelled_at_checkpoint1 = false)
    (hsc : env.start_collection = Except.ok (path, size))
    (hc2 : env.cancelled_at_checkpoint2 = false)
    (hup : env.upload_to_aws = Except.error reason)
    (hreason : hasInfixChars "successful".toList (lowerChars ("Failed: " ++ reason))
        = false)
    (hreg : Dict.get? s.sensors w.hostname = some c) :
    (w.run env).1.success = true
  ∧ (w.run env).1.aws_status = some ("Failed: " ++ reason)
  ∧ WorkerEvent.status_changed w.hostname CollectionStatus.aws_error
      ("[" ++ w.hostname ++ "] AWS upload failed: " ++ reason) ∈ (w.run env).2
  ∧ ∃ c', Dict.get? ((MainWindow.on_collection_complete s w.hostname
        ((w.run env).1) now).1).sensors w.hostname = some c'
      ∧ c'.stats.collections = c.stats.collections + 1
      ∧ c'.stats.uploaded = c.stats.uploaded := by
  obtain ⟨hn, wip, du, od, ua, sr⟩ := w
  simp only [CollectorWorker.upload_to_aws] at hupload
  subst hupload
  obtain ⟨gs, so, pr, sc, up, c1, c2, el⟩ := env
  simp only [SensorEnv.get_status] at hgs
  simp only [SensorEnv.cancelled_at_checkpoint1] at hc1
  simp only [SensorEnv.start_collection] at hsc
  simp only [SensorEnv.cancelled_at_checkpoint2] at hc2
  simp only [SensorEnv.upload_to_aws] at hup
  subst hgs; subst hc1; subst hsc; subst hc2; subst hup
  refine ⟨rfl, rfl, ?_, ?_⟩
  · simp [CollectorWorker.run, CollectorWorker.runBody, List.mem_append]
  · obtain ⟨c', hget, hcol, hupl, herr⟩ :=
      on_complete_stats s hn c
        ((CollectorWorker.run ⟨hn, wip, du, od, true, sr⟩
          ⟨Except.ok battery, so, pr, Except.ok (path, size),
            Except.error reason, false, false, el⟩).1) now hreg
    have hres : ((CollectorWorker.run ⟨hn, wip, du, od, true, sr⟩
        ⟨Except.ok battery, so, pr, Except.ok (path, size),
          Except.error reason, false, false, el⟩).1).success = true := rfl
    have haws : awsStatusSuccessful ((CollectorWorker.run ⟨hn, wip, du, od, true, sr⟩
        ⟨Except.ok battery, so, pr, Except.ok (path, size),
          Except.error reason, false, false, el⟩).1).aws_status = false := by
      show hasInfixChars "successful".toList (lowerChars ("Failed: " ++ reason)) = false
      exact hreason
    simp only [hres, haws, if_true, Bool.false_eq_true, and_false, if_false,
      add_zero] at hcol hupl herr
    exact ⟨c', hget, hcol, hupl⟩

/-- Witness for C4 at concrete inputs with upload raising "timeout". -/
theorem upload_failure_nonfatal_witness :
    (CollectorWorker.run ⟨"e", "10.0.0.7", 10, "/o", true, 104⟩
        ⟨Except.ok 77, Except.ok (), [(3, 6)], Except.ok ("/o/k.csv", 42),
          Except.error "timeout", false, false, 12⟩).1.success = true
  ∧ (CollectorWorker.run ⟨"e", "10.0.0.7", 10, "/o", true, 104⟩
        ⟨Except.ok 77, Except.ok (), [(3, 6)], Except.ok ("/o/k.csv", 42),
          Except.error "timeout", false, false, 12⟩).1.aws_status
      = some ("Failed: " ++ "timeout")
  ∧ ∃ c', Dict.get? ((MainWindow.on_collection_complete
        ⟨[("e", ⟨"e", "10.0.0.7", 10, 5, IntervalUnit.minutes, 104, some "/o",
            true, StopMode.continuous, 1, none, 0, SensorStatus.waiting, true,
            30, ⟨5, 4, 0⟩, 0⟩)], [("e", true)], true⟩
        "e"
        ((CollectorWorker.run ⟨"e", "10.0.0.7", 10, "/o", true, 104⟩
          ⟨Except.ok 77, Except.ok (), [(3, 6)], Except.ok ("/o/k.csv", 42),
            Except.error "timeout", false, false, 12⟩).1)
        0).1).sensors "e" = some c'
      ∧ c'.stats.collections = (5 : Int) + 1
      ∧ c'.stats.uploaded = (4 : Int) := by
  have h := upload_failure_nonfatal ⟨"e", "10.0.0.7", 10, "/o", true, 104⟩
    ⟨Except.ok 77, Except.ok (), [(3, 6)], Except.ok ("/o/k.csv", 42),
      Except.error "timeout", false, false, 12⟩
    77 "/o/k.csv" 42 "timeout"
    ⟨[("e", ⟨"e", "10.0.0.7", 10, 5, IntervalUnit.minutes, 104, some "/o",
        true, StopMode.continuous, 1, none, 0, SensorStatus.waiting, true,
        30, ⟨5, 4, 0⟩, 0⟩)], [("e", true)], true⟩
    ⟨"e", "10.0.0.7", 10, 5, IntervalUnit.minutes, 104, some "/o",
        true, StopMode.continuous, 1, none, 0, SensorStatus.waiting, true,
        30, ⟨5, 4, 0⟩, 0⟩
    0 rfl rfl rfl rfl rfl rfl (by decide) rfl
  exact ⟨h.1, h.2.1, h.2.2.2⟩

/-- Counterexample to C4 as frozen: when the upload exception's message
itself contains "successful" (here `str(e) = "successful"`), the recorded
`aws_status = "Failed: successful"` passes the handler's lowercased substring
test and `uploaded` IS incremented even though the upload step raised. -/
theorem upload_failure_nonfatal_counterexample :
    (SensorEnv.upload_to_aws
        ⟨Except.ok 77, Except.ok (), [], Except.ok ("/o/k.csv", 42),
          Except.error "successful", false, false, 12⟩
      = Except.error "successful")
  ∧ (CollectorWorker.run ⟨"e", "10.0.0.7", 10, "/o", true, 104⟩
        ⟨Except.ok 77, Except.ok (), [], Except.ok ("/o/k.csv", 42),
          Except.error "successful", false, false, 12⟩).1.success = true
  ∧ (CollectorWorker.run ⟨"e", "10.0.0.7", 10, "/o", true, 104⟩
        ⟨Except.ok 77, Except.ok (), [], Except.ok ("/o/k.csv", 42),
          Except.error "successful", false, false, 12⟩).1.aws_status
      = some "Failed: successful"
  ∧ (Dict.get? ((MainWindow.on_collection_complete
        ⟨[("e", ⟨"e", "10.0.0.7", 10, 5, IntervalUnit.minutes, 104, some "/o",
            true, StopMode.continuous, 1, none, 0, SensorStatus.idle, false,
            0, ⟨0, 0, 0⟩, 0⟩)], [("e", true)], true⟩
        "e"
        ((CollectorWorker.run ⟨"e", "10.0.0.7", 10, "/o", true, 104⟩
          ⟨Except.ok 77, Except.ok (), [], Except.ok ("/o/k.csv", 42),
            Except.error "successful", false, false, 12⟩).1)
        0).1).sensors "e").map (fun x => x.stats.uploaded) = some 1 := by
  refine ⟨rfl, rfl, rfl, ?_⟩
  decide

/-- Keeping the shared timer alive never touches the registry. -/
theorem ensure_timer_sensors (s : MultiSensorScheduler) :
    (s.ensure_timer_running).sensors = s.sensors := by
  unfold MultiSensorScheduler.ensure_timer_running
  split <;> rfl

/-- C6. `start_sensor` contract: it fails without side effect for an
unregistered hostname or an unconfigured sensor; otherwise it returns true,
marks the sensor running and `WAITING`, resets `remaining_repetitions` to
`repetition_count`, and then either requests an immediate job (guarded by the
collecting flag, countdown untouched) or arms the countdown to
`max 1 (interval in seconds)`. -/
theorem start_sensor_contract (s : MultiSensorScheduler) (h : String) (ri : Bool) :
    (Dict.get? s.sensors h = none → s.start_sensor h ri = (s, [], false))
  ∧ (∀ c, Dict.get? s.sensors h = some c → c.is_configured = false →
      s.start_sensor h ri = (s, [], false))
  ∧ (∀ c, Dict.get? s.sensors h = some c → c.is_configured = true →
      (s.start_sensor h ri).2.2 = true
    ∧ ∃ c', Dict.get? ((s.start_sensor h ri).1).sensors h = some c'
        ∧ c'.is_running = true ∧ c'.status = SensorStatus.waiting
        ∧ c'.remaining_repetitions = c.repetition_count
        ∧ (ri = true →
            c'.countdown_seconds = c.countdown_seconds
          ∧ ((Dict.get? s.collecting h).getD false = false →
              (s.start_sensor h ri).2.1
                = [SchedEvent.trigger_collection h, SchedEvent.sensor_started h])
          ∧ ((Dict.get? s.collecting h).getD false = true →
              (s.start_sensor h ri).2.1 = [SchedEvent.sensor_started h]))
        ∧ (ri = false →
            c'.countdown_seconds
                = max 1 (c.interval_unit.to_seconds c.interval_value)
          ∧ (s.start_sensor h ri).2.1 = [SchedEvent.sensor_started h])) := by
  have get_ensure : ∀ (t : MultiSensorScheduler) (k : String),
      Dict.get? (t.ensure_timer_running).sensors k = Dict.get? t.sensors k := by
    intro t k
    rw [ensure_timer_sensors]
  refine ⟨fun hnone => ?_, fun c hreg hncfg => ?_, fun c hreg hcfg => ?_⟩
  · unfold MultiSensorScheduler.start_sensor
    simp only [hnone]
  · unfold MultiSensorScheduler.start_sensor
    rw [hreg]
    simp [hncfg]
  · cases ri
    · unfold MultiSensorScheduler.start_sensor
      rw [hreg]
      simp only []
      rw [if_neg (by simp [hcfg])]
      refine ⟨rfl, ?_⟩
      refine ⟨SensorConfig.reset_countdown (SensorConfig.reset_repetitions
        { c with is_running := true, status := SensorStatus.waiting }),
        ?_, rfl, rfl, rfl, ?_, ?_⟩
      · exact (get_ensure _ h).trans (Dict.get_set_self _ _ _)
      · intro hfalse
        cases hfalse
      · intro _
        exact ⟨rfl, rfl⟩
    · unfold MultiSensorScheduler.start_sensor
      rw [hreg]
      simp only []
      rw [if_neg (by simp [hcfg])]
      refine ⟨rfl, ?_⟩
      refine ⟨SensorConfig.reset_repetitions
        { c with is_running := true, status := SensorStatus.waiting },
        ?_, rfl, rfl, rfl, ?_, ?_⟩
      · exact (get_ensure _ h).trans (Dict.get_set_self _ _ _)
      · intro _
        refine ⟨rfl, ?_, ?_⟩ <;> intro hcol <;>
          simp [MultiSensorScheduler.trigger_sensor, hcol]
      · intro hfalse
        cases hfalse

/-- Witness for C6: an unregistered hostname fails, an unconfigured sensor
fails, a configured sensor armed without immediate run gets its countdown. -/
theorem start_sensor_contract_witness :
    (MultiSensorScheduler.start_sensor ⟨[], [], false⟩ "z" true
      = (⟨[], [], false⟩, [], false))
  ∧ (MultiSensorScheduler.start_sensor
      ⟨[("u", ⟨"u", "10.0.0.8", 10, 5, IntervalUnit.minutes, 104, none, true,
          StopMode.continuous, 1, none, 0, SensorStatus.idle, false, 0,
          ⟨0, 0, 0⟩, 0⟩)], [("u", false)], false⟩ "u" true
      = (⟨[("u", ⟨"u", "10.0.0.8", 10, 5, IntervalUnit.minutes, 104, none, true,
          StopMode.continuous, 1, none, 0, SensorStatus.idle, false, 0,
          ⟨0, 0, 0⟩, 0⟩)], [("u", false)], false⟩, [], false))
  ∧ ((MultiSensorScheduler.start_sensor
      ⟨[("g", ⟨"g", "10.0.0.9", 10, 5, IntervalUnit.minutes, 104, some "/o", true,
          StopMode.continuous, 2, none, 0, SensorStatus.idle, false, 0,
          ⟨0, 0, 0⟩, 0⟩)], [("g", false)], false⟩ "g" false).2.2 = true)
  ∧ ∃ c', Dict.get? ((MultiSensorScheduler.start_sensor
      ⟨[("g", ⟨"g", "10.0.0.9", 10, 5, IntervalUnit.minutes, 104, some "/o", true,
          StopMode.continuous, 2, none, 0, SensorStatus.idle, false, 0,
          ⟨0, 0, 0⟩, 0⟩)], [("g", false)], false⟩ "g" false).1).sensors "g"
        = some c'
      ∧ c'.is_running = true ∧ c'.status = SensorStatus.waiting
      ∧ c'.remaining_repetitions = 2
      ∧ c'.countdown_seconds
          = max 1 (IntervalUnit.to_seconds IntervalUnit.minutes 5) := by
  refine ⟨(start_sensor_contract ⟨[], [], false⟩ "z" true).1 rfl,
    (start_sensor_contract ⟨[("u", ⟨"u", "10.0.0.8", 10, 5, IntervalUnit.minutes,
        104, none, true, StopMode.continuous, 1, none, 0, SensorStatus.idle,
        false, 0, ⟨0, 0, 0⟩, 0⟩)], [("u", false)], false⟩ "u" true).2.1 _ rfl rfl,
    ((start_sensor_contract ⟨[("g", ⟨"g", "10.0.0.9", 10, 5, IntervalUnit.minutes,
        104, some "/o", true, StopMode.continuous, 2, none, 0, SensorStatus.idle,
        false, 0, ⟨0, 0, 0⟩, 0⟩)], [("g", false)], false⟩ "g" false).2.2 _ rfl
        rfl).1, ?_⟩
  obtain ⟨c', hget, h1, h2, h3, _, hri⟩ :=
    ((start_sensor_contract ⟨[("g", ⟨"g", "10.0.0.9", 10, 5, IntervalUnit.minutes,
        104, some "/o", true, StopMode.continuous, 2, none, 0, SensorStatus.idle,
        false, 0, ⟨0, 0, 0⟩, 0⟩)], [("g", false)], false⟩ "g" false).2.2 _ rfl
        rfl).2
  exact ⟨c', hget, h1, h2, h3, (hri rfl).1⟩

/-- Timer upkeep never changes lookups into the registry. -/
theorem get_ensure_timer (t : MultiSensorScheduler) (k : String) :
    Dict.get? (t.ensure_timer_running).sensors k = Dict.get? t.sensors k := by
  rw [ensure_timer_sensors]

/-- One completed cycle of a registered running `AFTER_COUNT` sensor:
`remaining_repetitions` drops by one and the sensor stops exactly when the
decremented value is ≤ 0. -/
theorem after_count_step (s : MultiSensorScheduler) (h : String)
    (c : SensorConfig) (r : CollectionResult) (now : Int)
    (hreg : Dict.get? s.sensors h = some c) (hrun : c.is_running = true)
    (hmode : c.stop_mode = StopMode.after_count) :
    ∃ c', Dict.get? ((MainWindow.on_collection_complete s h r now).1).sensors h
        = some c'
      ∧ c'.remaining_repetitions = c.remaining_repetitions - 1
      ∧ c'.stop_mode = StopMode.after_count
      ∧ (c.remaining_repetitions - 1 ≤ 0 →
          c'.is_running = false ∧ c'.status = SensorStatus.idle
            ∧ c'.countdown_seconds = 0)
      ∧ (¬ c.remaining_repetitions - 1 ≤ 0 →
          c'.is_running = true ∧ c'.status = SensorStatus.waiting) := by
  obtain ⟨c', hget, hrem, hsm, _, _, hcond⟩ :=
    on_complete_scheduling s h c r now hreg hrun
  obtain ⟨hdec, hiff⟩ := should_stop_after_count c now hmode
  refine ⟨c', hget, hrem.trans hdec, hsm.trans hmode, ?_, ?_⟩
  · intro hle
    rw [hiff.mpr hle] at hcond
    simp only [if_true] at hcond
    exact hcond
  · intro hnle
    have h2 : (c.should_stop_after_collection now).2 = false := by
      cases hq : (c.should_stop_after_collection now).2
      · rfl
      · exact absurd (hiff.mp hq) hnle
    rw [h2] at hcond
    simp only [Bool.false_eq_true, if_false] at hcond
    exact ⟨hcond.1, hcond.2.1⟩

/-- C2. AfterCount stop policy: starting an `AFTER_COUNT` sensor with
`repetition_count = 3` resets `remaining_repetitions` to 3; with one
stop-check per completed cycle, the sensor is still running and `WAITING`
after cycles 1 and 2 (remaining 2 then 1) and is stopped — not running,
`IDLE` — after exactly the third completed cycle, whatever each cycle's
result was. -/
theorem after_count_three_cycles (s : MultiSensorScheduler) (h : String)
    (c : SensorConfig) (ri : Bool) (r₁ r₂ r₃ : CollectionResult)
    (n₁ n₂ n₃ : Int)
    (hreg : Dict.get? s.sensors h = some c)
    (hcfg : c.is_configured = true)
    (hmode : c.stop_mode = StopMode.after_count)
    (hcount : c.repetition_count = 3) :
    ∃ c₁ c₂ c₃ c₄,
      Dict.get? ((s.start_sensor h ri).1).sensors h = some c₁
    ∧ c₁.is_running = true ∧ c₁.status = SensorStatus.waiting
    ∧ c₁.remaining_repetitions = 3
    ∧ Dict.get? ((MainWindow.on_collection_complete (s.start_sensor h ri).1 h r₁ n₁).1).sensors h = some c₂
    ∧ c₂.is_running = true ∧ c₂.status = SensorStatus.waiting
    ∧ c₂.remaining_repetitions = 2
    ∧ Dict.get? ((MainWindow.on_collection_complete (MainWindow.on_collection_complete (s.start_sensor h ri).1 h r₁ n₁).1 h r₂ n₂).1).sensors h = some c₃
    ∧ c₃.is_running = true ∧ c₃.status = SensorStatus.waiting
    ∧ c₃.remaining_repetitions = 1
    ∧ Dict.get? ((MainWindow.on_collection_complete (MainWindow.on_collection_complete (MainWindow.on_collection_complete (s.start_sensor h ri).1 h r₁ n₁).1 h r₂ n₂).1 h r₃ n₃).1).sensors h = some c₄
    ∧ c₄.is_running = false ∧ c₄.status = SensorStatus.idle
    ∧ c₄.remaining_repetitions = 0 := by
  have hstart : ∃ c₁, Dict.get? ((s.start_sensor h ri).1).sensors h = some c₁
      ∧ c₁.is_running = true ∧ c₁.status = SensorStatus.waiting
      ∧ c₁.remaining_repetitions = 3 ∧ c₁.stop_mode = StopMode.after_count := by
    cases ri
    · unfold MultiSensorScheduler.start_sensor
      rw [hreg]
      simp only []
      rw [if_neg (by simp [hcfg])]
      refine ⟨_, (get_ensure_timer _ h).trans (Dict.get_set_self _ _ _),
        rfl, rfl, ?_, ?_⟩
      · exact hcount
      · exact hmode
    · unfold MultiSensorScheduler.start_sensor
      rw [hreg]
      simp only []
      rw [if_neg (by simp [hcfg])]
      refine ⟨_, (get_ensure_timer _ h).trans (Dict.get_set_self _ _ _),
        rfl, rfl, ?_, ?_⟩
      · exact hcount
      · exact hmode
  obtain ⟨c₁, hg₁, hrun₁, hst₁, hrem₁, hm₁⟩ := hstart
  obtain ⟨c₂, hg₂, hrem₂, hm₂, _, hgo₂⟩ := after_count_step _ h c₁ r₁ n₁ hg₁ hrun₁ hm₁
  have hrem₂' : c₂.remaining_repetitions = 2 := by rw [hrem₂, hrem₁]; decide
  obtain ⟨hrun₂, hst₂⟩ := hgo₂ (by rw [hrem₁]; decide)
  obtain ⟨c₃, hg₃, hrem₃, hm₃, _, hgo₃⟩ := after_count_step _ h c₂ r₂ n₂ hg₂ hrun₂ hm₂
  have hrem₃' : c₃.remaining_repetitions = 1 := by rw [hrem₃, hrem₂']; decide
  obtain ⟨hrun₃, hst₃⟩ := hgo₃ (by rw [hrem₂']; decide)
  obtain ⟨c₄, hg₄, hrem₄, hm₄, hstop₄, _⟩ := after_count_step _ h c₃ r₃ n₃ hg₃ hrun₃ hm₃
  have hrem₄' : c₄.remaining_repetitions = 0 := by rw [hrem₄, hrem₃']; decide
  obtain ⟨hrun₄, hst₄, _⟩ := hstop₄ (by rw [hrem₃']; decide)
  exact ⟨c₁, c₂, c₃, c₄, hg₁, hrun₁, hst₁, hrem₁, hg₂, hrun₂, hst₂, hrem₂',
    hg₃, hrun₃, hst₃, hrem₃', hg₄, hrun₄, hst₄, hrem₄'⟩

/-- Witness for C2: an `AFTER_COUNT` sensor with `repetition_count = 3`,
three completed failing cycles; remaining 3 → 2 → 1 → stopped. -/
theorem after_count_three_cycles_witness :
    ∃ c₁ c₂ c₃ c₄,
      Dict.get? ((MultiSensorScheduler.start_sensor
        ⟨[("m", ⟨"m", "10.0.1.1", 10, 5, IntervalUnit.minutes, 104, some "/o",
            true, StopMode.after_count, 3, none, 0, SensorStatus.idle, false, 0,
            ⟨0, 0, 0⟩, 0⟩)], [("m", false)], false⟩ "m" false).1).sensors "m"
        = some c₁
    ∧ c₁.is_running = true ∧ c₁.status = SensorStatus.waiting
    ∧ c₁.remaining_repetitions = 3
    ∧ Dict.get? ((MainWindow.on_collection_complete (MultiSensorScheduler.start_sensor ⟨[("m", ⟨"m", "10.0.1.1", 10, 5, IntervalUnit.minutes, 104, some "/o", true, StopMode.after_count, 3, none, 0, SensorStatus.idle, false, 0, ⟨0, 0, 0⟩, 0⟩)], [("m", false)], false⟩ "m" false).1 "m" ⟨"m", false, none, 0, none, some "x", 1⟩ 0).1).sensors "m" = some c₂
    ∧ c₂.is_running = true ∧ c₂.status = SensorStatus.waiting
    ∧ c₂.remaining_repetitions = 2
    ∧ Dict.get? ((MainWindow.on_collection_complete (MainWindow.on_collection_complete (MultiSensorScheduler.start_sensor ⟨[("m", ⟨"m", "10.0.1.1", 10, 5, IntervalUnit.minutes, 104, some "/o", true, StopMode.after_count, 3, none, 0, SensorStatus.idle, false, 0, ⟨0, 0, 0⟩, 0⟩)], [("m", false)], false⟩ "m" false).1 "m" ⟨"m", false, none, 0, none, some "x", 1⟩ 0).1 "m" ⟨"m", false, none, 0, none, some "x", 1⟩ 0).1).sensors "m" = some c₃
    ∧ c₃.is_running = true ∧ c₃.status = SensorStatus.waiting
    ∧ c₃.remaining_repetitions = 1
    ∧ Dict.get? ((MainWindow.on_collection_complete (MainWindow.on_collection_complete (MainWindow.on_collection_complete (MultiSensorScheduler.start_sensor ⟨[("m", ⟨"m", "10.0.1.1", 10, 5, IntervalUnit.minutes, 104, some "/o", true, StopMode.after_count, 3, none, 0, SensorStatus.idle, false, 0, ⟨0, 0, 0⟩, 0⟩)], [("m", false)], false⟩ "m" false).1 "m" ⟨"m", false, none, 0, none, some "x", 1⟩ 0).1 "m" ⟨"m", false, none, 0, none, some "x", 1⟩ 0).1 "m" ⟨"m", false, none, 0, none, some "x", 1⟩ 0).1).sensors "m" = some c₄
    ∧ c₄.is_running = false ∧ c₄.status = SensorStatus.idle
    ∧ c₄.remaining_repetitions = 0 :=
  after_count_three_cycles
    ⟨[("m", ⟨"m", "10.0.1.1", 10, 5, IntervalUnit.minutes, 104, some "/o",
        true, StopMode.after_count, 3, none, 0, SensorStatus.idle, false, 0,
        ⟨0, 0, 0⟩, 0⟩)], [("m", false)], false⟩ "m"
    ⟨"m", "10.0.1.1", 10, 5, IntervalUnit.minutes, 104, some "/o",
        true, StopMode.after_count, 3, none, 0, SensorStatus.idle, false, 0,
        ⟨0, 0, 0⟩, 0⟩ false
    ⟨"m", false, none, 0, none, some "x", 1⟩
    ⟨"m", false, none, 0, none, some "x", 1⟩
    ⟨"m", false, none, 0, none, some "x", 1⟩
    0 0 0 rfl rfl rfl rfl

/-- C10. `tick_countdown` is clamped at zero and reports zero rather than
the transition to zero: the new countdown is `max 0 (old − 1)`, the returned
flag holds iff the new countdown equals 0, a countdown already at 0 stays at
0 with the flag still true — so a running, `WAITING`, non-collecting sensor
at countdown 0 yields a trigger attempt on this and hence every subsequent
tick, its state unchanged. -/
theorem tick_countdown_clamped (c : SensorConfig) (h : String) :
    (0 ≤ c.countdown_seconds →
      ((c.tick_countdown).1).countdown_seconds = max 0 (c.countdown_seconds - 1))
  ∧ ((c.tick_countdown).2 = true
      ↔ ((c.tick_countdown).1).countdown_seconds = 0)
  ∧ (c.countdown_seconds = 0 →
      (c.tick_countdown).1 = c ∧ (c.tick_countdown).2 = true)
  ∧ (c.countdown_seconds = 0 → c.is_running = true →
     c.status = SensorStatus.waiting →
      MultiSensorScheduler.tickSensor h false c
        = (c, [SchedEvent.countdown_tick h 0, SchedEvent.trigger_collection h])) := by
  refine ⟨fun h0 => ?_, ?_, fun hz => ?_, fun hz hrun hwait => ?_⟩
  · unfold SensorConfig.tick_countdown
    by_cases hpos : c.countdown_seconds > 0
    · simp only [hpos, if_true]
      omega
    · simp only [hpos, if_false]
      omega
  · unfold SensorConfig.tick_countdown
    by_cases hpos : c.countdown_seconds > 0 <;> simp [hpos]
  · unfold SensorConfig.tick_countdown
    simp [hz]
  · unfold MultiSensorScheduler.tickSensor
    simp [hrun, hwait, SensorConfig.tick_countdown, hz]

/-- Witness for C10 at a concrete running, waiting sensor with countdown 0. -/
theorem tick_countdown_clamped_witness :
    (0 : Int) ≤ (0 : Int)
  ∧ ((SensorConfig.tick_countdown ⟨"w", "10.0.1.2", 10, 5, IntervalUnit.minutes,
      104, some "/o", true, StopMode.continuous, 1, none, 0,
      SensorStatus.waiting, true, 0, ⟨0, 0, 0⟩, 0⟩).1).countdown_seconds
      = max 0 ((0 : Int) - 1)
  ∧ MultiSensorScheduler.tickSensor "w" false
      ⟨"w", "10.0.1.2", 10, 5, IntervalUnit.minutes, 104, some "/o", true,
        StopMode.continuous, 1, none, 0, SensorStatus.waiting, true, 0,
        ⟨0, 0, 0⟩, 0⟩
      = (⟨"w", "10.0.1.2", 10, 5, IntervalUnit.minutes, 104, some "/o", true,
          StopMode.continuous, 1, none, 0, SensorStatus.waiting, true, 0,
          ⟨0, 0, 0⟩, 0⟩,
        [SchedEvent.countdown_tick "w" 0, SchedEvent.trigger_collection "w"]) := by
  have h := tick_countdown_clamped
    ⟨"w", "10.0.1.2", 10, 5, IntervalUnit.minutes, 104, some "/o", true,
      StopMode.continuous, 1, none, 0, SensorStatus.waiting, true, 0,
      ⟨0, 0, 0⟩, 0⟩ "w"
  exact ⟨by decide, h.1 (by decide), h.2.2.2 rfl rfl rfl⟩

/-- Every event one sensor's tick emits is about that sensor. -/
theorem tickSensor_filter_self (h' : String) (b : Bool) (c : SensorConfig) :
    ((MultiSensorScheduler.tickSensor h' b c).2).filter
        (fun e => SchedEvent.hostnameOf e = h')
      = (MultiSensorScheduler.tickSensor h' b c).2 := by
  unfold MultiSensorScheduler.tickSensor
  split
  · rfl
  · split
    · rfl
    · split
      · simp only [SensorConfig.tick_countdown]
        split <;> split <;> simp [SchedEvent.hostnameOf]
      · rfl

/-- One sensor's tick emits nothing about any other hostname. -/
theorem tickSensor_filter_ne (h' k : String) (b : Bool) (c : SensorConfig)
    (hne : ¬ h' = k) :
    ((MultiSensorScheduler.tickSensor h' b c).2).filter
        (fun e => SchedEvent.hostnameOf e = k) = [] := by
  unfold MultiSensorScheduler.tickSensor
  split
  · rfl
  · split
    · rfl
    · split
      · simp only [SensorConfig.tick_countdown]
        split <;> split <;> simp [SchedEvent.hostnameOf, hne]
      · rfl

/-- Ticking sensors other than `h` contributes no events about `h`. -/
theorem tick_map_absent (col : String → Bool) (l : List (String × SensorConfig))
    (h : String) (hnot : h ∉ l.map Prod.fst) :
    ((l.map (fun p =>
        (MultiSensorScheduler.tickSensor p.1 (col p.1) p.2).2)).flatten).filter
      (fun e => SchedEvent.hostnameOf e = h) = [] := by
  induction l with
  | nil => rfl
  | cons p rest ih =>
      simp only [List.map_cons, List.mem_cons, not_or] at hnot
      simp only [List.map_cons, List.flatten_cons, List.filter_append]
      rw [tickSensor_filter_ne p.1 h (col p.1) p.2 (fun hh => hnot.1 hh.symm),
        ih hnot.2]
      rfl

/-- The heartbeat map: the registered sensor `h` is replaced by its ticked
version, and the events about `h` are exactly its own tick's events. -/
theorem tick_map_lookup (col : String → Bool) (l : List (String × SensorConfig))
    (h : String) (c : SensorConfig)
    (hnodup : (l.map Prod.fst).Nodup) (hreg : Dict.get? l h = some c) :
    Dict.get? (l.map (fun p => (p.1,
        (MultiSensorScheduler.tickSensor p.1 (col p.1) p.2).1))) h
      = some ((MultiSensorScheduler.tickSensor h (col h) c).1)
  ∧ ((l.map (fun p =>
        (MultiSensorScheduler.tickSensor p.1 (col p.1) p.2).2)).flatten).filter
      (fun e => SchedEvent.hostnameOf e = h)
      = (MultiSensorScheduler.tickSensor h (col h) c).2 := by
  induction l with
  | nil => cases hreg
  | cons p rest ih =>
      obtain ⟨k, v⟩ := p
      simp only [List.map_cons, List.nodup_cons] at hnodup
      by_cases hk : k = h
      · subst hk
        have hc : v = c := by
          simpa [Dict.get?] using hreg
        subst hc
        constructor
        · simp [Dict.get?]
        · simp only [List.map_cons, List.flatten_cons, List.filter_append]
          rw [tickSensor_filter_self, tick_map_absent col rest k hnodup.1]
          simp
      · have hreg' : Dict.get? rest h = some c := by
          simpa [Dict.get?, hk] using hreg
        obtain ⟨ih1, ih2⟩ := ih hnodup.2 hreg'
        constructor
        · simpa [Dict.get?, hk] using ih1
        · simp only [List.map_cons, List.flatten_cons, List.filter_append]
          rw [tickSensor_filter_ne k h (col k) v hk, ih2]
          rfl

/-- A filter whose acceptance implies another filter's can be computed after
the coarser one. -/
theorem filter_eq_of_imp {α : Type} (p q : α → Bool) (l : List α)
    (himp : ∀ e, p e = true → q e = true) :
    l.filter p = (l.filter q).filter p := by
  induction l with
  | nil => rfl
  | cons a l ih =>
      by_cases hp : p a = true
      · rw [List.filter_cons_of_pos hp, List.filter_cons_of_pos (himp a hp),
          List.filter_cons_of_pos hp, ih]
      · rw [List.filter_cons_of_neg (by simpa using hp)]
        by_cases hq : q a = true
        · rw [List.filter_cons_of_pos hq,
            List.filter_cons_of_neg (by simpa using hp), ih]
        · rw [List.filter_cons_of_neg (by simpa using hq), ih]

/-- The heartbeat's effect on one registered sensor, and the events it emits
about it, are those of `tickSensor`. -/
theorem on_tick_spec (s : MultiSensorScheduler) (h : String) (c : SensorConfig)
    (hnodup : (s.sensors.map Prod.fst).Nodup)
    (hreg : Dict.get? s.sensors h = some c) :
    Dict.get? ((s.on_tick).1).sensors h
      = some ((MultiSensorScheduler.tickSensor h
          ((Dict.get? s.collecting h).getD false) c).1)
  ∧ ((s.on_tick).2).filter (fun e => SchedEvent.hostnameOf e = h)
      = (MultiSensorScheduler.tickSensor h
          ((Dict.get? s.collecting h).getD false) c).2 :=
  tick_map_lookup (fun k => (Dict.get? s.collecting k).getD false)
    s.sensors h c hnodup hreg

/-- A running, waiting, non-collecting sensor's tick: countdown ticks, the
new value is emitted, and a trigger follows exactly when it is zero. -/
theorem tickSensor_active (h' : String) (c : SensorConfig)
    (hrun : c.is_running = true) (hwait : c.status = SensorStatus.waiting) :
    MultiSensorScheduler.tickSensor h' false c
      = ((c.tick_countdown).1,
          SchedEvent.countdown_tick h' ((c.tick_countdown).1).countdown_seconds
            :: (if ((c.tick_countdown).1).countdown_seconds = 0 then
                  [SchedEvent.trigger_collection h'] else [])) := by
  unfold MultiSensorScheduler.tickSensor
  rw [if_neg (by simp [hrun]), if_neg (by simp), if_pos hwait]
  simp only [SensorConfig.tick_countdown]
  split <;> split <;> simp_all

/-- A sensor that is not running, is collecting, or is not waiting is left
unchanged by the tick and emits nothing. -/
theorem tickSensor_inactive (h' : String) (b : Bool) (c : SensorConfig)
    (hcase : c.is_running = false ∨ b = true ∨ ¬ c.status = SensorStatus.waiting) :
    MultiSensorScheduler.tickSensor h' b c = (c, []) := by
  unfold MultiSensorScheduler.tickSensor
  rcases hcase with h1 | h1 | h1
  · simp [h1]
  · subst h1
    by_cases hr : c.is_running = true <;> simp [hr]
  · by_cases hr : c.is_running = true <;> by_cases hb : b = true <;>
      simp [hr, hb, h1]

/-- C5. Heartbeat tick semantics: on a tick, a registered sensor that is
running, `WAITING` and not collecting has its countdown decremented with a
floor of 0, exactly one countdown event carrying the new value is published
for it, and exactly one trigger is emitted iff the new countdown is 0; a
sensor that is not running, is collecting, or is not waiting is untouched
and no event about it is published. -/
theorem heartbeat_tick_semantics (s : MultiSensorScheduler) (h : String)
    (c : SensorConfig)
    (hnodup : (s.sensors.map Prod.fst).Nodup)
    (hreg : Dict.get? s.sensors h = some c) :
    (c.is_running = true → (Dict.get? s.collecting h).getD false = false →
     c.status = SensorStatus.waiting →
      ∃ c', Dict.get? ((s.on_tick).1).sensors h = some c'
        ∧ (0 ≤ c.countdown_seconds →
            c'.countdown_seconds = max 0 (c.countdown_seconds - 1))
        ∧ ((s.on_tick).2).filter
              (fun e => e = SchedEvent.countdown_tick h c'.countdown_seconds)
            = [SchedEvent.countdown_tick h c'.countdown_seconds]
        ∧ ((s.on_tick).2).filter (fun e => e = SchedEvent.trigger_collection h)
            = (if c'.countdown_seconds = 0 then [SchedEvent.trigger_collection h]
               else []))
  ∧ ((c.is_running = false ∨ (Dict.get? s.collecting h).getD false = true ∨
      ¬ c.status = SensorStatus.waiting) →
      Dict.get? ((s.on_tick).1).sensors h = some c
      ∧ ((s.on_tick).2).filter (fun e => SchedEvent.hostnameOf e = h) = []) := by
  obtain ⟨hlook, hevs⟩ := on_tick_spec s h c hnodup hreg
  constructor
  · intro hrun hcol hwait
    rw [hcol, tickSensor_active h c hrun hwait] at hlook hevs
    refine ⟨(c.tick_countdown).1, hlook, ?_, ?_, ?_⟩
    · intro h0
      unfold SensorConfig.tick_countdown
      by_cases hpos : c.countdown_seconds > 0 <;> simp [hpos] <;> omega
    · rw [filter_eq_of_imp
          (fun e => e = SchedEvent.countdown_tick h
            ((c.tick_countdown).1).countdown_seconds)
          (fun e => SchedEvent.hostnameOf e = h) _ ?_, hevs]
      · by_cases hz : ((c.tick_countdown).1).countdown_seconds = 0 <;>
          simp [hz, List.filter_cons, SchedEvent.hostnameOf]
      · intro e he
        simp only [decide_eq_true_eq] at he ⊢
        subst he
        rfl
    · rw [filter_eq_of_imp (fun e => e = SchedEvent.trigger_collection h)
          (fun e => SchedEvent.hostnameOf e = h) _ ?_, hevs]
      · by_cases hz : ((c.tick_countdown).1).countdown_seconds = 0 <;>
          simp [hz, List.filter_cons, SchedEvent.hostnameOf]
      · intro e he
        simp only [decide_eq_true_eq] at he ⊢
        subst he
        rfl
  · intro hcase
    rw [tickSensor_inactive h _ c hcase] at hlook hevs
    exact ⟨hlook, hevs⟩

/-- Witness for C5: a single running waiting sensor with countdown 1 ticks to
0 and triggers. -/
theorem heartbeat_tick_semantics_witness :
    ∃ c', Dict.get? (((MultiSensorScheduler.on_tick
        ⟨[("t", ⟨"t", "10.0.1.3", 10, 5, IntervalUnit.minutes, 104, some "/o",
            true, StopMode.continuous, 1, none, 0, SensorStatus.waiting, true,
            1, ⟨0, 0, 0⟩, 0⟩)], [("t", false)], true⟩)).1).sensors "t" = some c'
      ∧ ((0 : Int) ≤ 1 → c'.countdown_seconds = max 0 ((1 : Int) - 1))
      ∧ ((MultiSensorScheduler.on_tick
          ⟨[("t", ⟨"t", "10.0.1.3", 10, 5, IntervalUnit.minutes, 104, some "/o",
              true, StopMode.continuous, 1, none, 0, SensorStatus.waiting, true,
              1, ⟨0, 0, 0⟩, 0⟩)], [("t", false)], true⟩).2).filter
            (fun e => e = SchedEvent.countdown_tick "t" c'.countdown_seconds)
          = [SchedEvent.countdown_tick "t" c'.countdown_seconds]
      ∧ ((MultiSensorScheduler.on_tick
          ⟨[("t", ⟨"t", "10.0.1.3", 10, 5, IntervalUnit.minutes, 104, some "/o",
              true, StopMode.continuous, 1, none, 0, SensorStatus.waiting, true,
              1, ⟨0, 0, 0⟩, 0⟩)], [("t", false)], true⟩).2).filter
            (fun e => e = SchedEvent.trigger_collection "t")
          = (if c'.countdown_seconds = 0 then [SchedEvent.trigger_collection "t"]
             else []) :=
  (heartbeat_tick_semantics
    ⟨[("t", ⟨"t", "10.0.1.3", 10, 5, IntervalUnit.minutes, 104, some "/o",
        true, StopMode.continuous, 1, none, 0, SensorStatus.waiting, true,
        1, ⟨0, 0, 0⟩, 0⟩)], [("t", false)], true⟩ "t"
    ⟨"t", "10.0.1.3", 10, 5, IntervalUnit.minutes, 104, some "/o",
        true, StopMode.continuous, 1, none, 0, SensorStatus.waiting, true,
        1, ⟨0, 0, 0⟩, 0⟩
    (by simp) rfl).1 rfl rfl rfl

end EVident
